import Mathlib

/-!
# JCufft: the JNI bridge between Java and the CUFFT library

A shallow embedding of `JCufftJNI/src/JCufft.cpp`.

* Java references are `Option Nat`: `none` is `NULL`, `some r` is the object `r`.
  Objects of different Java classes live in different stores of the `World`
  (`cufftHandle` objects, `int[]` arrays, `long[]` arrays, `Pointer` objects,
  `cudaStream_t` objects), so two arguments of the same Java type may be the same
  object, and two arguments of different types never are.
* Every interaction of the bridge with its surroundings (logger, exception
  helper, JNI field access, array helpers, pointer helpers, the CUFFT library)
  is appended to the event list of the `World`, in program order.
* The CUFFT library is a parameter: an arbitrary state machine answering every
  call with a result code and the contents it leaves in the out-parameters.
-/

namespace JCufft

/-- The `cufftType` enumeration of `cufft.h`, as far as `getCufftType` names it. -/
inductive cufftType where
  | CUFFT_R2C
  | CUFFT_C2R
  | CUFFT_C2C
  | CUFFT_D2Z
  | CUFFT_Z2D
  | CUFFT_Z2Z
  deriving DecidableEq, Repr

/-- The two levels of `Logger::log` that the bridge uses. -/
inductive LogLevel where
  | LOG_ERROR
  | LOG_TRACE
  deriving DecidableEq, Repr

/-- A call of a CUFFT routine as the library sees it: the routine and its
arguments in the positional order of `cufft.h`. Out-parameters that are only
written (`workSize`, `version`, `value`) are left out; the `cufftHandle *` of the
plan/create routines appears with the content it has on entry. A native array
is `none` for a null pointer and otherwise the elements of the storage. -/
inductive NativeCall where
  | cufftGetVersion
  | cufftGetProperty (type : Int)
  | cufftPlan1d (plan nx : Int) (type : cufftType) (batch : Int)
  | cufftPlan2d (plan nx ny : Int) (type : cufftType)
  | cufftPlan3d (plan nx ny nz : Int) (type : cufftType)
  | cufftPlanMany (plan rank : Int) (n inembed : Option (List Int)) (istride idist : Int)
      (onembed : Option (List Int)) (ostride odist : Int) (type : cufftType) (batch : Int)
  | cufftMakePlan1d (plan nx : Int) (type : cufftType) (batch : Int)
  | cufftMakePlan2d (plan nx ny : Int) (type : cufftType)
  | cufftMakePlan3d (plan nx ny nz : Int) (type : cufftType)
  | cufftMakePlanMany (plan rank : Int) (n inembed : Option (List Int)) (istride idist : Int)
      (onembed : Option (List Int)) (ostride odist : Int) (type : cufftType) (batch : Int)
  | cufftMakePlanMany64 (plan rank : Int) (n inembed : Option (List Int)) (istride idist : Int)
      (onembed : Option (List Int)) (ostride odist : Int) (type : cufftType) (batch : Int)
  | cufftGetSizeMany64 (plan rank : Int) (n inembed : Option (List Int)) (istride idist : Int)
      (onembed : Option (List Int)) (ostride odist : Int) (type : cufftType) (batch : Int)
  | cufftEstimate1d (nx : Int) (type : cufftType) (batch : Int)
  | cufftEstimate2d (nx ny : Int) (type : cufftType)
  | cufftEstimate3d (nx ny nz : Int) (type : cufftType)
  | cufftEstimateMany (rank : Int) (n inembed : Option (List Int)) (istride idist : Int)
      (onembed : Option (List Int)) (ostride odist : Int) (type : cufftType) (batch : Int)
  | cufftCreate (handle : Int)
  | cufftGetSize1d (handle nx : Int) (type : cufftType) (batch : Int)
  | cufftGetSize2d (handle nx ny : Int) (type : cufftType)
  | cufftGetSize3d (handle nx ny nz : Int) (type : cufftType)
  | cufftGetSizeMany (handle rank : Int) (n inembed : Option (List Int)) (istride idist : Int)
      (onembed : Option (List Int)) (ostride odist : Int) (type : cufftType) (batch : Int)
  | cufftGetSize (handle : Int)
  | cufftSetWorkArea (plan workArea : Int)
  | cufftSetAutoAllocation (plan autoAllocate : Int)
  | cufftDestroy (plan : Int)
  | cufftExecC2C (plan idata odata direction : Int)
  | cufftExecR2C (plan idata odata : Int)
  | cufftExecC2R (plan idata odata : Int)
  | cufftExecZ2Z (plan idata odata direction : Int)
  | cufftExecD2Z (plan idata odata : Int)
  | cufftExecZ2D (plan idata odata : Int)
  | cufftSetStream (plan stream : Int)
  deriving DecidableEq, Repr

/-- What a CUFFT routine leaves behind: its `cufftResult` as a number, and the
contents of its out-parameters when it returns (a routine without the
out-parameter in question leaves the field unused). -/
structure NativeReply where
  /-- the returned `cufftResult` -/
  result : Int
  /-- content of the `cufftHandle *` out-parameter on return -/
  handle : Int
  /-- content of the `size_t *` out-parameter on return -/
  workSize : Nat
  /-- content of the `int *` out-parameter on return -/
  value : Int
  deriving DecidableEq, Repr

/-- A Java array handed to an array helper: an `int[]` or a `long[]` object. -/
inductive ArrayRef where
  | jintArray (r : Nat)
  | jlongArray (r : Nat)
  deriving DecidableEq, Repr

/-- One interaction of the bridge with its surroundings. -/
inductive Event where
  | log (level : LogLevel) (format : String) (args : List Int)
  | setLogLevel (logLevel : Int)
  | throwByName (className message : String)
  | getIntField (obj : Nat)
  | setIntField (obj : Nat) (value : Int)
  | getArrayContents (array : Option ArrayRef)
  | set (array : ArrayRef) (index : Nat) (value : Int)
  | getPointer (obj : Nat)
  | getNativePointerValue (obj : Nat)
  | native (call : NativeCall)
  deriving DecidableEq, Repr

/-- The state the bridge runs in: the Java heap as far as the bridge touches it,
the state of the CUFFT library, and the events so far. -/
structure World (σ : Type) where
  /-- field `plan` of every `cufftHandle` object (`cufftHandle_plan`) -/
  plan : Nat → Int
  /-- elements of every `int[]` object -/
  intArrays : Nat → List Int
  /-- elements of every `long[]` object -/
  longArrays : Nat → List Int
  /-- native address behind every `Pointer` object -/
  pointers : Nat → Int
  /-- native pointer value of every `cudaStream_t` object -/
  streams : Nat → Int
  /-- state of the CUFFT library -/
  lib : σ
  /-- interactions so far, oldest first -/
  events : List Event

/-- What the bridge is compiled and linked against. -/
structure Env (σ : Type) where
  /-- the constant `JCUFFT_INTERNAL_ERROR` of `JCufft_common.hpp` -/
  JCUFFT_INTERNAL_ERROR : Int
  /-- the CUFFT library: any state machine over the calls -/
  cufft : σ → NativeCall → NativeReply × σ

variable {σ : Type}

/-- Append one event. -/
def World.emit (w : World σ) (e : Event) : World σ :=
  { w with events := w.events ++ [e] }

/-- Modelled from the spec: `Logger::log` of the logging collaborator, a leveled
process-wide log sink; a call is recorded with its level, format and arguments. -/
def Logger.log (level : LogLevel) (format : String) (args : List Int) (w : World σ) : World σ :=
  w.emit (Event.log level format args)

/-- Modelled from the spec: `Logger::setLogLevel` of the logging collaborator. -/
def Logger.setLogLevel (logLevel : Int) (w : World σ) : World σ :=
  w.emit (Event.setLogLevel logLevel)

/-- Modelled from the spec: `ThrowByName` of the exception-signaling collaborator,
which raises a managed exception of a named class with a message. -/
def ThrowByName (className message : String) (w : World σ) : World σ :=
  w.emit (Event.throwByName className message)

/-- JNI `GetIntField(obj, cufftHandle_plan)`. -/
def GetIntField (obj : Nat) (w : World σ) : Int × World σ :=
  (w.plan obj, w.emit (Event.getIntField obj))

/-- JNI `SetIntField(obj, cufftHandle_plan, value)`. -/
def SetIntField (obj : Nat) (value : Int) (w : World σ) : World σ :=
  { w with plan := Function.update w.plan obj value,
           events := w.events ++ [Event.setIntField obj value] }

/-- Modelled from the spec: `getArrayContents` for `jintArray` of the JNI helper
collaborator; a null array gives a null pointer, any other array is copied
element for element into fresh native storage. -/
def getArrayContents_jintArray (ja : Option Nat) (w : World σ) : Option (List Int) × World σ :=
  (ja.map w.intArrays, w.emit (Event.getArrayContents (ja.map ArrayRef.jintArray)))

/-- Modelled from the spec: `getArrayContents` for `jlongArray` of the JNI helper
collaborator; a null array gives a null pointer, any other array is copied
element for element into fresh native storage. -/
def getArrayContents_jlongArray (ja : Option Nat) (w : World σ) : Option (List Int) × World σ :=
  (ja.map w.longArrays, w.emit (Event.getArrayContents (ja.map ArrayRef.jlongArray)))

/-- Modelled from the spec: `set` for `jintArray` of the JNI helper collaborator,
the write-back into a caller-supplied array. An index outside the array raises
`ArrayIndexOutOfBoundsException` and reports failure; otherwise the element is
stored and success reported. -/
def set_jintArray (ja : Nat) (index : Nat) (value : Int) (w : World σ) : Bool × World σ :=
  let w := w.emit (Event.set (ArrayRef.jintArray ja) index value)
  if index < (w.intArrays ja).length then
    (true, { w with intArrays := Function.update w.intArrays ja ((w.intArrays ja).set index value) })
  else
    (false, ThrowByName "java/lang/ArrayIndexOutOfBoundsException" "Array index out of bounds" w)

/-- Modelled from the spec: `set` for `jlongArray` of the JNI helper collaborator,
the write-back into a caller-supplied array. An index outside the array raises
`ArrayIndexOutOfBoundsException` and reports failure; otherwise the element is
stored and success reported. -/
def set_jlongArray (ja : Nat) (index : Nat) (value : Int) (w : World σ) : Bool × World σ :=
  let w := w.emit (Event.set (ArrayRef.jlongArray ja) index value)
  if index < (w.longArrays ja).length then
    (true, { w with longArrays := Function.update w.longArrays ja ((w.longArrays ja).set index value) })
  else
    (false, ThrowByName "java/lang/ArrayIndexOutOfBoundsException" "Array index out of bounds" w)

/-- Modelled from the spec: `getPointer` of the pointer-marshalling collaborator,
which resolves a managed buffer-wrapper object to a raw native address. -/
def getPointer (obj : Nat) (w : World σ) : Int × World σ :=
  (w.pointers obj, w.emit (Event.getPointer obj))

/-- Modelled from the spec: `getNativePointerValue` of the pointer-marshalling
collaborator, which resolves a managed stream-wrapper object to a raw native
stream handle. -/
def getNativePointerValue (obj : Nat) (w : World σ) : Int × World σ :=
  (w.streams obj, w.emit (Event.getNativePointerValue obj))

/-- The cast `(jlong)nativeWorkSize` from `size_t`: the 64-bit pattern read as a
signed number. -/
def jlong_of_size_t (c : Nat) : Int :=
  if c % 2 ^ 64 < 2 ^ 63 then ((c % 2 ^ 64 : Nat) : Int) else ((c % 2 ^ 64 : Nat) : Int) - 2 ^ 64

/-- Calling a CUFFT routine: the call is recorded, the library answers and
moves to its next state. -/
def callNative (env : Env σ) (call : NativeCall) (w : World σ) : NativeReply × World σ :=
  ((env.cufft w.lib call).1,
    { w with lib := (env.cufft w.lib call).2, events := w.events ++ [Event.native call] })

/-- `getCufftType`: the `cufftType` for the given int value. -/
def getCufftType (type : Int) (w : World σ) : cufftType × World σ :=
  if type = 0x2A then (cufftType.CUFFT_R2C, w)
  else if type = 0x2C then (cufftType.CUFFT_C2R, w)
  else if type = 0x29 then (cufftType.CUFFT_C2C, w)
  else if type = 0x6a then (cufftType.CUFFT_D2Z, w)
  else if type = 0x6c then (cufftType.CUFFT_Z2D, w)
  else if type = 0x69 then (cufftType.CUFFT_Z2Z, w)
  else (cufftType.CUFFT_C2C, Logger.log LogLevel.LOG_ERROR "Invalid cufftType specified: %d\n" [type] w)

/-- `Java_jcuda_jcufft_JCufft_setLogLevel` (returns `void`). -/
@[simp]
def Java_jcuda_jcufft_JCufft_setLogLevel (_env : Env σ) (logLevel : Int) (w : World σ) :
    Option Int × World σ :=
  (none, Logger.setLogLevel logLevel w)

/-- `Java_jcuda_jcufft_JCufft_cufftGetVersionNative`. -/
@[simp]
def Java_jcuda_jcufft_JCufft_cufftGetVersionNative (env : Env σ) (version : Option Nat)
    (w : World σ) : Option Int × World σ :=
  match version with
  | none => (some env.JCUFFT_INTERNAL_ERROR,
      ThrowByName "java/lang/NullPointerException" "Parameter 'version' is null for cufftGetVersion" w)
  | some version =>
    let w := Logger.log LogLevel.LOG_TRACE "Executing cufftGetVersion\n" [] w
    let (reply, w) := callNative env NativeCall.cufftGetVersion w
    let (_, w) := set_jintArray version 0 reply.value w
    (some reply.result, w)

/-- `Java_jcuda_jcufft_JCufft_cufftGetPropertyNative`. -/
@[simp]
def Java_jcuda_jcufft_JCufft_cufftGetPropertyNative (env : Env σ) (type : Int) (value : Option Nat)
    (w : World σ) : Option Int × World σ :=
  match value with
  | none => (some env.JCUFFT_INTERNAL_ERROR,
      ThrowByName "java/lang/NullPointerException" "Parameter 'value' is null for cufftGetProperty" w)
  | some value =>
    let w := Logger.log LogLevel.LOG_TRACE "Executing cufftGetProperty(type=%d, value=%p)\n"
      [type, (value : Int)] w
    let (reply, w) := callNative env (NativeCall.cufftGetProperty type) w
    let (stored, w) := set_jintArray value 0 reply.value w
    if !stored then (some env.JCUFFT_INTERNAL_ERROR, w)
    else (some reply.result, w)

/-- `Java_jcuda_jcufft_JCufft_cufftPlan1dNative`. -/
@[simp]
def Java_jcuda_jcufft_JCufft_cufftPlan1dNative (env : Env σ) (handle : Option Nat)
    (nx type batch : Int) (w : World σ) : Option Int × World σ :=
  match handle with
  | none => (some env.JCUFFT_INTERNAL_ERROR,
      ThrowByName "java/lang/NullPointerException" "Parameter 'handle' is null for cufftPlan1d" w)
  | some handle =>
    let w := Logger.log LogLevel.LOG_TRACE "Creating 1D plan for %d elements of type %d\n" [nx, type] w
    let (plan, w) := GetIntField handle w
    let (ty, w) := getCufftType type w
    let (reply, w) := callNative env (NativeCall.cufftPlan1d plan nx ty batch) w
    let w := SetIntField handle reply.handle w
    (some reply.result, w)

/-- `Java_jcuda_jcufft_JCufft_cufftPlan2dNative`. -/
@[simp]
def Java_jcuda_jcufft_JCufft_cufftPlan2dNative (env : Env σ) (handle : Option Nat)
    (nx ny type : Int) (w : World σ) : Option Int × World σ :=
  match handle with
  | none => (some env.JCUFFT_INTERNAL_ERROR,
      ThrowByName "java/lang/NullPointerException" "Parameter 'handle' is null for cufftPlan2d" w)
  | some handle =>
    let w := Logger.log LogLevel.LOG_TRACE "Creating 2D plan for (%d, %d) elements of type %d\n"
      [nx, ny, type] w
    let (plan, w) := GetIntField handle w
    let (ty, w) := getCufftType type w
    let (reply, w) := callNative env (NativeCall.cufftPlan2d plan nx ny ty) w
    let w := SetIntField handle reply.handle w
    (some reply.result, w)

/-- `Java_jcuda_jcufft_JCufft_cufftPlan3dNative`. -/
@[simp]
def Java_jcuda_jcufft_JCufft_cufftPlan3dNative (env : Env σ) (handle : Option Nat)
    (nx ny nz type : Int) (w : World σ) : Option Int × World σ :=
  match handle with
  | none => (some env.JCUFFT_INTERNAL_ERROR,
      ThrowByName "java/lang/NullPointerException" "Parameter 'handle' is null for cufftPlan3d" w)
  | some handle =>
    let w := Logger.log LogLevel.LOG_TRACE "Creating 3D plan for (%d, %d, %d) elements of type %d\n"
      [nx, ny, nz, type] w
    let (plan, w) := GetIntField handle w
    let (ty, w) := getCufftType type w
    let (reply, w) := callNative env (NativeCall.cufftPlan3d plan nx ny nz ty) w
    let w := SetIntField handle reply.handle w
    (some reply.result, w)

/-- `Java_jcuda_jcufft_JCufft_cufftPlanManyNative`. -/
@[simp]
def Java_jcuda_jcufft_JCufft_cufftPlanManyNative (env : Env σ) (handle : Option Nat) (rank : Int)
    (n inembed : Option Nat) (istride idist : Int) (onembed : Option Nat) (ostride odist : Int)
    (type batch : Int) (w : World σ) : Option Int × World σ :=
  match handle with
  | none => (some env.JCUFFT_INTERNAL_ERROR,
      ThrowByName "java/lang/NullPointerException" "Parameter 'handle' is null for cufftPlanMany" w)
  | some handle =>
  match n with
  | none => (some env.JCUFFT_INTERNAL_ERROR,
      ThrowByName "java/lang/NullPointerException" "Parameter 'n' is null for cufftPlanMany" w)
  | some n =>
    let w := Logger.log LogLevel.LOG_TRACE "Executing cufftPlanMany\n" [] w
    let (plan, w) := GetIntField handle w
    let (nativeN, w) := getArrayContents_jintArray (some n) w
    let (nativeInembed, w) := getArrayContents_jintArray inembed w
    let (nativeOnembed, w) := getArrayContents_jintArray onembed w
    let (ty, w) := getCufftType type w
    let (reply, w) := callNative env (NativeCall.cufftPlanMany plan rank nativeN nativeInembed
      istride idist nativeOnembed ostride odist ty batch) w
    let w := SetIntField handle reply.handle w
    (some reply.result, w)

/-- `Java_jcuda_jcufft_JCufft_cufftMakePlan1dNative`. -/
@[simp]
def Java_jcuda_jcufft_JCufft_cufftMakePlan1dNative (env : Env σ) (plan : Option Nat)
    (nx type batch : Int) (workSize : Option Nat) (w : World σ) : Option Int × World σ :=
  match plan with
  | none => (some env.JCUFFT_INTERNAL_ERROR,
      ThrowByName "java/lang/NullPointerException" "Parameter 'plan' is null for cufftMakePlan1d" w)
  | some plan =>
  match workSize with
  | none => (some env.JCUFFT_INTERNAL_ERROR,
      ThrowByName "java/lang/NullPointerException" "Parameter 'workSize' is null for cufftMakePlan1d" w)
  | some workSize =>
    let w := Logger.log LogLevel.LOG_TRACE "Executing cufftMakePlan1d\n" [] w
    let (nativePlan, w) := GetIntField plan w
    let (ty, w) := getCufftType type w
    let (reply, w) := callNative env (NativeCall.cufftMakePlan1d nativePlan nx ty batch) w
    let w := SetIntField plan nativePlan w
    let (_, w) := set_jlongArray workSize 0 (jlong_of_size_t reply.workSize) w
    (some reply.result, w)

/-- `Java_jcuda_jcufft_JCufft_cufftMakePlan2dNative`. -/
@[simp]
def Java_jcuda_jcufft_JCufft_cufftMakePlan2dNative (env : Env σ) (plan : Option Nat)
    (nx ny type : Int) (workSize : Option Nat) (w : World σ) : Option Int × World σ :=
  match plan with
  | none => (some env.JCUFFT_INTERNAL_ERROR,
      ThrowByName "java/lang/NullPointerException" "Parameter 'plan' is null for cufftMakePlan2d" w)
  | some plan =>
  match workSize with
  | none => (some env.JCUFFT_INTERNAL_ERROR,
      ThrowByName "java/lang/NullPointerException" "Parameter 'workSize' is null for cufftMakePlan2d" w)
  | some workSize =>
    let w := Logger.log LogLevel.LOG_TRACE "Executing cufftMakePlan2d\n" [] w
    let (nativePlan, w) := GetIntField plan w
    let (ty, w) := getCufftType type w
    let (reply, w) := callNative env (NativeCall.cufftMakePlan2d nativePlan nx ny ty) w
    let w := SetIntField plan nativePlan w
    let (_, w) := set_jlongArray workSize 0 (jlong_of_size_t reply.workSize) w
    (some reply.result, w)

/-- `Java_jcuda_jcufft_JCufft_cufftMakePlan3dNative`. -/
@[simp]
def Java_jcuda_jcufft_JCufft_cufftMakePlan3dNative (env : Env σ) (plan : Option Nat)
    (nx ny nz type : Int) (workSize : Option Nat) (w : World σ) : Option Int × World σ :=
  match plan with
  | none => (some env.JCUFFT_INTERNAL_ERROR,
      ThrowByName "java/lang/NullPointerException" "Parameter 'plan' is null for cufftMakePlan3d" w)
  | some plan =>
  match workSize with
  | none => (some env.JCUFFT_INTERNAL_ERROR,
      ThrowByName "java/lang/NullPointerException" "Parameter 'workSize' is null for cufftMakePlan3d" w)
  | some workSize =>
    let w := Logger.log LogLevel.LOG_TRACE "Executing cufftMakePlan3d\n" [] w
    let (nativePlan, w) := GetIntField plan w
    let (ty, w) := getCufftType type w
    let (reply, w) := callNative env (NativeCall.cufftMakePlan3d nativePlan nx ny nz ty) w
    let w := SetIntField plan nativePlan w
    let (_, w) := set_jlongArray workSize 0 (jlong_of_size_t reply.workSize) w
    (some reply.result, w)

/-- `Java_jcuda_jcufft_JCufft_cufftMakePlanManyNative`. -/
@[simp]
def Java_jcuda_jcufft_JCufft_cufftMakePlanManyNative (env : Env σ) (plan : Option Nat) (rank : Int)
    (n inembed : Option Nat) (istride idist : Int) (onembed : Option Nat) (ostride odist : Int)
    (type batch : Int) (workSize : Option Nat) (w : World σ) : Option Int × World σ :=
  match plan with
  | none => (some env.JCUFFT_INTERNAL_ERROR,
      ThrowByName "java/lang/NullPointerException" "Parameter 'plan' is null for cufftMakePlanMany" w)
  | some plan =>
  match n with
  | none => (some env.JCUFFT_INTERNAL_ERROR,
      ThrowByName "java/lang/NullPointerException" "Parameter 'n' is null for cufftMakePlanMany" w)
  | some n =>
  match workSize with
  | none => (some env.JCUFFT_INTERNAL_ERROR,
      ThrowByName "java/lang/NullPointerException" "Parameter 'workSize' is null for cufftMakePlanMany" w)
  | some workSize =>
    let w := Logger.log LogLevel.LOG_TRACE "Executing cufftMakePlanMany\n" [] w
    let (nativePlan, w) := GetIntField plan w
    let (nativeN, w) := getArrayContents_jintArray (some n) w
    let (nativeInembed, w) := getArrayContents_jintArray inembed w
    let (nativeOnembed, w) := getArrayContents_jintArray onembed w
    let (ty, w) := getCufftType type w
    let (reply, w) := callNative env (NativeCall.cufftMakePlanMany nativePlan rank nativeN nativeInembed
      istride idist nativeOnembed ostride odist ty batch) w
    let w := SetIntField plan nativePlan w
    let (_, w) := set_jlongArray workSize 0 (jlong_of_size_t reply.workSize) w
    (some reply.result, w)

/-- `Java_jcuda_jcufft_JCufft_cufftMakePlanManyNative64`. -/
@[simp]
def Java_jcuda_jcufft_JCufft_cufftMakePlanManyNative64 (env : Env σ) (plan : Option Nat) (rank : Int)
    (n inembed : Option Nat) (istride idist : Int) (onembed : Option Nat) (ostride odist : Int)
    (type batch : Int) (workSize : Option Nat) (w : World σ) : Option Int × World σ :=
  match plan with
  | none => (some env.JCUFFT_INTERNAL_ERROR,
      ThrowByName "java/lang/NullPointerException" "Parameter 'plan' is null for cufftMakePlanMany64" w)
  | some plan =>
  match n with
  | none => (some env.JCUFFT_INTERNAL_ERROR,
      ThrowByName "java/lang/NullPointerException" "Parameter 'n' is null for cufftMakePlanMany64" w)
  | some n =>
  match workSize with
  | none => (some env.JCUFFT_INTERNAL_ERROR,
      ThrowByName "java/lang/NullPointerException" "Parameter 'workSize' is null for cufftMakePlanMany64" w)
  | some workSize =>
    let w := Logger.log LogLevel.LOG_TRACE "Executing cufftMakePlanMany64\n" [] w
    let (nativePlan, w) := GetIntField plan w
    let (nativeN, w) := getArrayContents_jlongArray (some n) w
    let (nativeInembed, w) := getArrayContents_jlongArray inembed w
    let (nativeOnembed, w) := getArrayContents_jlongArray onembed w
    let (ty, w) := getCufftType type w
    let (reply, w) := callNative env (NativeCall.cufftMakePlanMany64 nativePlan rank nativeN nativeInembed
      istride idist nativeOnembed ostride odist ty batch) w
    let w := SetIntField plan nativePlan w
    let (_, w) := set_jlongArray workSize 0 (jlong_of_size_t reply.workSize) w
    (some reply.result, w)

/-- `Java_jcuda_jcufft_JCufft_cufftGetSizeMany64Native`. -/
@[simp]
def Java_jcuda_jcufft_JCufft_cufftGetSizeMany64Native (env : Env σ) (plan : Option Nat) (rank : Int)
    (n inembed : Option Nat) (istride idist : Int) (onembed : Option Nat) (ostride odist : Int)
    (type batch : Int) (workSize : Option Nat) (w : World σ) : Option Int × World σ :=
  match plan with
  | none => (some env.JCUFFT_INTERNAL_ERROR,
      ThrowByName "java/lang/NullPointerException" "Parameter 'plan' is null for cufftGetSizeMany64" w)
  | some plan =>
  match n with
  | none => (some env.JCUFFT_INTERNAL_ERROR,
      ThrowByName "java/lang/NullPointerException" "Parameter 'n' is null for cufftGetSizeMany64" w)
  | some n =>
  match workSize with
  | none => (some env.JCUFFT_INTERNAL_ERROR,
      ThrowByName "java/lang/NullPointerException" "Parameter 'workSize' is null for cufftGetSizeMany64" w)
  | some workSize =>
    let w := Logger.log LogLevel.LOG_TRACE "Executing cufftGetSizeMany64\n" [] w
    let (nativePlan, w) := GetIntField plan w
    let (nativeN, w) := getArrayContents_jlongArray (some n) w
    let (nativeInembed, w) := getArrayContents_jlongArray inembed w
    let (nativeOnembed, w) := getArrayContents_jlongArray onembed w
    let (ty, w) := getCufftType type w
    let (reply, w) := callNative env (NativeCall.cufftGetSizeMany64 nativePlan rank nativeN nativeInembed
      istride idist nativeOnembed ostride odist ty batch) w
    let w := SetIntField plan nativePlan w
    let (_, w) := set_jlongArray workSize 0 (jlong_of_size_t reply.workSize) w
    (some reply.result, w)

/-- `Java_jcuda_jcufft_JCufft_cufftEstimate1dNative`. -/
@[simp]
def Java_jcuda_jcufft_JCufft_cufftEstimate1dNative (env : Env σ)
    (nx type batch : Int) (workSize : Option Nat) (w : World σ) : Option Int × World σ :=
  match workSize with
  | none => (some env.JCUFFT_INTERNAL_ERROR,
      ThrowByName "java/lang/NullPointerException" "Parameter 'workSize' is null for cufftEstimate1d" w)
  | some workSize =>
    let w := Logger.log LogLevel.LOG_TRACE "Executing cufftEstimate1d\n" [] w
    let (ty, w) := getCufftType type w
    let (reply, w) := callNative env (NativeCall.cufftEstimate1d nx ty batch) w
    let (_, w) := set_jlongArray workSize 0 (jlong_of_size_t reply.workSize) w
    (some reply.result, w)

/-- `Java_jcuda_jcufft_JCufft_cufftEstimate2dNative`. -/
@[simp]
def Java_jcuda_jcufft_JCufft_cufftEstimate2dNative (env : Env σ)
    (nx ny type : Int) (workSize : Option Nat) (w : World σ) : Option Int × World σ :=
  match workSize with
  | none => (some env.JCUFFT_INTERNAL_ERROR,
      ThrowByName "java/lang/NullPointerException" "Parameter 'workSize' is null for cufftEstimate2d" w)
  | some workSize =>
    let w := Logger.log LogLevel.LOG_TRACE "Executing cufftEstimate2d\n" [] w
    let (ty, w) := getCufftType type w
    let (reply, w) := callNative env (NativeCall.cufftEstimate2d nx ny ty) w
    let (_, w) := set_jlongArray workSize 0 (jlong_of_size_t reply.workSize) w
    (some reply.result, w)

/-- `Java_jcuda_jcufft_JCufft_cufftEstimate3dNative`. -/
@[simp]
def Java_jcuda_jcufft_JCufft_cufftEstimate3dNative (env : Env σ)
    (nx ny nz type : Int) (workSize : Option Nat) (w : World σ) : Option Int × World σ :=
  match workSize with
  | none => (some env.JCUFFT_INTERNAL_ERROR,
      ThrowByName "java/lang/NullPointerException" "Parameter 'workSize' is null for cufftEstimate3d" w)
  | some workSize =>
    let w := Logger.log LogLevel.LOG_TRACE "Executing cufftEstimate3d\n" [] w
    let (ty, w) := getCufftType type w
    let (reply, w) := callNative env (NativeCall.cufftEstimate3d nx ny nz ty) w
    let (_, w) := set_jlongArray workSize 0 (jlong_of_size_t reply.workSize) w
    (some reply.result, w)

/-- `Java_jcuda_jcufft_JCufft_cufftEstimateManyNative`. -/
@[simp]
def Java_jcuda_jcufft_JCufft_cufftEstimateManyNative (env : Env σ) (rank : Int)
    (n inembed : Option Nat) (istride idist : Int) (onembed : Option Nat) (ostride odist : Int)
    (type batch : Int) (workSize : Option Nat) (w : World σ) : Option Int × World σ :=
  match n with
  | none => (some env.JCUFFT_INTERNAL_ERROR,
      ThrowByName "java/lang/NullPointerException" "Parameter 'n' is null for cufftEstimateMany" w)
  | some n =>
  match workSize with
  | none => (some env.JCUFFT_INTERNAL_ERROR,
      ThrowByName "java/lang/NullPointerException" "Parameter 'workSize' is null for cufftEstimateMany" w)
  | some workSize =>
    let w := Logger.log LogLevel.LOG_TRACE "Executing cufftEstimateMany\n" [] w
    let (nativeN, w) := getArrayContents_jintArray (some n) w
    let (nativeInembed, w) := getArrayContents_jintArray inembed w
    let (nativeOnembed, w) := getArrayContents_jintArray onembed w
    let (ty, w) := getCufftType type w
    let (reply, w) := callNative env (NativeCall.cufftEstimateMany rank nativeN nativeInembed
      istride idist nativeOnembed ostride odist ty batch) w
    let (_, w) := set_jlongArray workSize 0 (jlong_of_size_t reply.workSize) w
    (some reply.result, w)

/-- `Java_jcuda_jcufft_JCufft_cufftCreateNative`. -/
@[simp]
def Java_jcuda_jcufft_JCufft_cufftCreateNative (env : Env σ) (handle : Option Nat)
    (w : World σ) : Option Int × World σ :=
  match handle with
  | none => (some env.JCUFFT_INTERNAL_ERROR,
      ThrowByName "java/lang/NullPointerException" "Parameter 'handle' is null for cufftCreate" w)
  | some handle =>
    let w := Logger.log LogLevel.LOG_TRACE "Executing cufftCreate\n" [] w
    let (nativeHandle, w) := GetIntField handle w
    let (reply, w) := callNative env (NativeCall.cufftCreate nativeHandle) w
    let w := SetIntField handle reply.handle w
    (some reply.result, w)

/-- `Java_jcuda_jcufft_JCufft_cufftGetSize1dNative`. -/
@[simp]
def Java_jcuda_jcufft_JCufft_cufftGetSize1dNative (env : Env σ) (handle : Option Nat)
    (nx type batch : Int) (workSize : Option Nat) (w : World σ) : Option Int × World σ :=
  match handle with
  | none => (some env.JCUFFT_INTERNAL_ERROR,
      ThrowByName "java/lang/NullPointerException" "Parameter 'handle' is null for cufftGetSize1d" w)
  | some handle =>
  match workSize with
  | none => (some env.JCUFFT_INTERNAL_ERROR,
      ThrowByName "java/lang/NullPointerException" "Parameter 'workSize' is null for cufftGetSize1d" w)
  | some workSize =>
    let w := Logger.log LogLevel.LOG_TRACE "Executing cufftGetSize1d\n" [] w
    let (nativeHandle, w) := GetIntField handle w
    let (ty, w) := getCufftType type w
    let (reply, w) := callNative env (NativeCall.cufftGetSize1d nativeHandle nx ty batch) w
    let (_, w) := set_jlongArray workSize 0 (jlong_of_size_t reply.workSize) w
    (some reply.result, w)

/-- `Java_jcuda_jcufft_JCufft_cufftGetSize2dNative`. -/
@[simp]
def Java_jcuda_jcufft_JCufft_cufftGetSize2dNative (env : Env σ) (handle : Option Nat)
    (nx ny type : Int) (workSize : Option Nat) (w : World σ) : Option Int × World σ :=
  match handle with
  | none => (some env.JCUFFT_INTERNAL_ERROR,
      ThrowByName "java/lang/NullPointerException" "Parameter 'handle' is null for cufftGetSize2d" w)
  | some handle =>
  match workSize with
  | none => (some env.JCUFFT_INTERNAL_ERROR,
      ThrowByName "java/lang/NullPointerException" "Parameter 'workSize' is null for cufftGetSize2d" w)
  | some workSize =>
    let w := Logger.log LogLevel.LOG_TRACE "Executing cufftGetSize2d\n" [] w
    let (nativeHandle, w) := GetIntField handle w
    let (ty, w) := getCufftType type w
    let (reply, w) := callNative env (NativeCall.cufftGetSize2d nativeHandle nx ny ty) w
    let (_, w) := set_jlongArray workSize 0 (jlong_of_size_t reply.workSize) w
    (some reply.result, w)

/-- `Java_jcuda_jcufft_JCufft_cufftGetSize3dNative`. -/
@[simp]
def Java_jcuda_jcufft_JCufft_cufftGetSize3dNative (env : Env σ) (handle : Option Nat)
    (nx ny nz type : Int) (workSize : Option Nat) (w : World σ) : Option Int × World σ :=
  match handle with
  | none => (some env.JCUFFT_INTERNAL_ERROR,
      ThrowByName "java/lang/NullPointerException" "Parameter 'handle' is null for cufftGetSize3d" w)
  | some handle =>
  match workSize with
  | none => (some env.JCUFFT_INTERNAL_ERROR,
      ThrowByName "java/lang/NullPointerException" "Parameter 'workSize' is null for cufftGetSize3d" w)
  | some workSize =>
    let w := Logger.log LogLevel.LOG_TRACE "Executing cufftGetSize3d\n" [] w
    let (nativeHandle, w) := GetIntField handle w
    let (ty, w) := getCufftType type w
    let (reply, w) := callNative env (NativeCall.cufftGetSize3d nativeHandle nx ny nz ty) w
    let (_, w) := set_jlongArray workSize 0 (jlong_of_size_t reply.workSize) w
    (some reply.result, w)

/-- `Java_jcuda_jcufft_JCufft_cufftGetSizeManyNative`. -/
@[simp]
def Java_jcuda_jcufft_JCufft_cufftGetSizeManyNative (env : Env σ) (handle : Option Nat) (rank : Int)
    (n inembed : Option Nat) (istride idist : Int) (onembed : Option Nat) (ostride odist : Int)
    (type batch : Int) (workSize : Option Nat) (w : World σ) : Option Int × World σ :=
  match handle with
  | none => (some env.JCUFFT_INTERNAL_ERROR,
      ThrowByName "java/lang/NullPointerException" "Parameter 'plan' is null for cufftGetSizeMany" w)
  | some handle =>
  match n with
  | none => (some env.JCUFFT_INTERNAL_ERROR,
      ThrowByName "java/lang/NullPointerException" "Parameter 'n' is null for cufftGetSizeMany" w)
  | some n =>
  match workSize with
  | none => (some env.JCUFFT_INTERNAL_ERROR,
      ThrowByName "java/lang/NullPointerException" "Parameter 'workSize' is null for cufftGetSizeMany" w)
  | some workSize =>
    let w := Logger.log LogLevel.LOG_TRACE "Executing cufftGetSizeMany\n" [] w
    let (nativeHandle, w) := GetIntField handle w
    let (nativeN, w) := getArrayContents_jintArray (some n) w
    let (nativeInembed, w) := getArrayContents_jintArray inembed w
    let (nativeOnembed, w) := getArrayContents_jintArray onembed w
    let (ty, w) := getCufftType type w
    let (reply, w) := callNative env (NativeCall.cufftGetSizeMany nativeHandle rank nativeN
      nativeInembed istride idist nativeOnembed ostride odist ty batch) w
    let (_, w) := set_jlongArray workSize 0 (jlong_of_size_t reply.workSize) w
    (some reply.result, w)

/-- `Java_jcuda_jcufft_JCufft_cufftGetSizeNative`. -/
@[simp]
def Java_jcuda_jcufft_JCufft_cufftGetSizeNative (env : Env σ) (handle : Option Nat)
    (workSize : Option Nat) (w : World σ) : Option Int × World σ :=
  match handle with
  | none => (some env.JCUFFT_INTERNAL_ERROR,
      ThrowByName "java/lang/NullPointerException" "Parameter 'plan' is null for cufftGetSize" w)
  | some handle =>
  match workSize with
  | none => (some env.JCUFFT_INTERNAL_ERROR,
      ThrowByName "java/lang/NullPointerException" "Parameter 'workSize' is null for cufftGetSize" w)
  | some workSize =>
    let w := Logger.log LogLevel.LOG_TRACE "Executing cufftGetSize\n" [] w
    let (nativeHandle, w) := GetIntField handle w
    let (reply, w) := callNative env (NativeCall.cufftGetSize nativeHandle) w
    let (_, w) := set_jlongArray workSize 0 (jlong_of_size_t reply.workSize) w
    (some reply.result, w)

/-- `Java_jcuda_jcufft_JCufft_cufftSetWorkAreaNative`. -/
@[simp]
def Java_jcuda_jcufft_JCufft_cufftSetWorkAreaNative (env : Env σ) (handle : Option Nat)
    (workArea : Option Nat) (w : World σ) : Option Int × World σ :=
  match handle with
  | none => (some env.JCUFFT_INTERNAL_ERROR,
      ThrowByName "java/lang/NullPointerException" "Parameter 'plan' is null for cufftSetWorkArea" w)
  | some handle =>
  match workArea with
  | none => (some env.JCUFFT_INTERNAL_ERROR,
      ThrowByName "java/lang/NullPointerException" "Parameter 'workArea' is null for cufftSetWorkArea" w)
  | some workArea =>
    let w := Logger.log LogLevel.LOG_TRACE "Executing cufftSetWorkArea\n" [] w
    let (nativeHandle, w) := GetIntField handle w
    let (nativeWorkArea, w) := getPointer workArea w
    let (reply, w) := callNative env (NativeCall.cufftSetWorkArea nativeHandle nativeWorkArea) w
    (some reply.result, w)

/-- `Java_jcuda_jcufft_JCufft_cufftSetAutoAllocationNative`. -/
@[simp]
def Java_jcuda_jcufft_JCufft_cufftSetAutoAllocationNative (env : Env σ) (handle : Option Nat)
    (autoAllocate : Int) (w : World σ) : Option Int × World σ :=
  match handle with
  | none => (some env.JCUFFT_INTERNAL_ERROR,
      ThrowByName "java/lang/NullPointerException" "Parameter 'plan' is null for cufftSetAutoAllocation" w)
  | some handle =>
    let w := Logger.log LogLevel.LOG_TRACE "Executing cufftSetAutoAllocation\n" [] w
    let (nativeHandle, w) := GetIntField handle w
    let (reply, w) := callNative env (NativeCall.cufftSetAutoAllocation nativeHandle autoAllocate) w
    (some reply.result, w)

/-- `Java_jcuda_jcufft_JCufft_cufftDestroyNative`. -/
@[simp]
def Java_jcuda_jcufft_JCufft_cufftDestroyNative (env : Env σ) (handle : Option Nat)
    (w : World σ) : Option Int × World σ :=
  match handle with
  | none => (some env.JCUFFT_INTERNAL_ERROR,
      ThrowByName "java/lang/NullPointerException" "Parameter 'handle' is null for cufftDestroy" w)
  | some handle =>
    let w := Logger.log LogLevel.LOG_TRACE "Destroying plan\n" [] w
    let (plan, w) := GetIntField handle w
    let (reply, w) := callNative env (NativeCall.cufftDestroy plan) w
    (some reply.result, w)

/-- `Java_jcuda_jcufft_JCufft_cufftExecC2CNative`. -/
@[simp]
def Java_jcuda_jcufft_JCufft_cufftExecC2CNative (env : Env σ) (handle : Option Nat)
    (cIdata cOdata : Option Nat) (direction : Int) (w : World σ) : Option Int × World σ :=
  match handle with
  | none => (some env.JCUFFT_INTERNAL_ERROR,
      ThrowByName "java/lang/NullPointerException" "Parameter 'handle' is null for cufftExecC2C" w)
  | some handle =>
  match cIdata with
  | none => (some env.JCUFFT_INTERNAL_ERROR,
      ThrowByName "java/lang/NullPointerException" "Parameter 'cIdata' is null for cufftExecC2C" w)
  | some cIdata =>
  match cOdata with
  | none => (some env.JCUFFT_INTERNAL_ERROR,
      ThrowByName "java/lang/NullPointerException" "Parameter 'cOdata' is null for cufftExecC2C" w)
  | some cOdata =>
    let w := Logger.log LogLevel.LOG_TRACE "Executing cufftExecC2C\n" [] w
    let (nativePlan, w) := GetIntField handle w
    let (nativeCIData, w) := getPointer cIdata w
    let (nativeCOData, w) := getPointer cOdata w
    let (reply, w) := callNative env (NativeCall.cufftExecC2C nativePlan nativeCIData nativeCOData direction) w
    (some reply.result, w)

/-- `Java_jcuda_jcufft_JCufft_cufftExecR2CNative`. -/
@[simp]
def Java_jcuda_jcufft_JCufft_cufftExecR2CNative (env : Env σ) (handle : Option Nat)
    (rIdata cOdata : Option Nat) (w : World σ) : Option Int × World σ :=
  match handle with
  | none => (some env.JCUFFT_INTERNAL_ERROR,
      ThrowByName "java/lang/NullPointerException" "Parameter 'handle' is null for cufftExecR2C" w)
  | some handle =>
  match rIdata with
  | none => (some env.JCUFFT_INTERNAL_ERROR,
      ThrowByName "java/lang/NullPointerException" "Parameter 'rIdata' is null for cufftExecR2C" w)
  | some rIdata =>
  match cOdata with
  | none => (some env.JCUFFT_INTERNAL_ERROR,
      ThrowByName "java/lang/NullPointerException" "Parameter 'cOdata' is null for cufftExecR2C" w)
  | some cOdata =>
    let w := Logger.log LogLevel.LOG_TRACE "Executing cufftExecR2C\n" [] w
    let (nativePlan, w) := GetIntField handle w
    let (nativeRIData, w) := getPointer rIdata w
    let (nativeCOData, w) := getPointer cOdata w
    let (reply, w) := callNative env (NativeCall.cufftExecR2C nativePlan nativeRIData nativeCOData) w
    (some reply.result, w)

/-- `Java_jcuda_jcufft_JCufft_cufftExecC2RNative`. -/
@[simp]
def Java_jcuda_jcufft_JCufft_cufftExecC2RNative (env : Env σ) (handle : Option Nat)
    (cIdata rOdata : Option Nat) (w : World σ) : Option Int × World σ :=
  match handle with
  | none => (some env.JCUFFT_INTERNAL_ERROR,
      ThrowByName "java/lang/NullPointerException" "Parameter 'handle' is null for cufftExecC2R" w)
  | some handle =>
  match cIdata with
  | none => (some env.JCUFFT_INTERNAL_ERROR,
      ThrowByName "java/lang/NullPointerException" "Parameter 'cIdata' is null for cufftExecC2R" w)
  | some cIdata =>
  match rOdata with
  | none => (some env.JCUFFT_INTERNAL_ERROR,
      ThrowByName "java/lang/NullPointerException" "Parameter 'rOdata' is null for cufftExecC2R" w)
  | some rOdata =>
    let w := Logger.log LogLevel.LOG_TRACE "Executing cufftExecC2R\n" [] w
    let (nativePlan, w) := GetIntField handle w
    let (nativeCIData, w) := getPointer cIdata w
    let (nativeROData, w) := getPointer rOdata w
    let (reply, w) := callNative env (NativeCall.cufftExecC2R nativePlan nativeCIData nativeROData) w
    (some reply.result, w)

/-- `Java_jcuda_jcufft_JCufft_cufftExecZ2ZNative`. -/
@[simp]
def Java_jcuda_jcufft_JCufft_cufftExecZ2ZNative (env : Env σ) (handle : Option Nat)
    (cIdata cOdata : Option Nat) (direction : Int) (w : World σ) : Option Int × World σ :=
  match handle with
  | none => (some env.JCUFFT_INTERNAL_ERROR,
      ThrowByName "java/lang/NullPointerException" "Parameter 'handle' is null for cufftExecZ2Z" w)
  | some handle =>
  match cIdata with
  | none => (some env.JCUFFT_INTERNAL_ERROR,
      ThrowByName "java/lang/NullPointerException" "Parameter 'cIdata' is null for cufftExecZ2Z" w)
  | some cIdata =>
  match cOdata with
  | none => (some env.JCUFFT_INTERNAL_ERROR,
      ThrowByName "java/lang/NullPointerException" "Parameter 'cOdata' is null for cufftExecZ2Z" w)
  | some cOdata =>
    let w := Logger.log LogLevel.LOG_TRACE "Executing cufftExecZ2Z\n" [] w
    let (nativePlan, w) := GetIntField handle w
    let (nativeCIData, w) := getPointer cIdata w
    let (nativeCOData, w) := getPointer cOdata w
    let (reply, w) := callNative env (NativeCall.cufftExecZ2Z nativePlan nativeCIData nativeCOData direction) w
    (some reply.result, w)

/-- `Java_jcuda_jcufft_JCufft_cufftExecD2ZNative`. -/
@[simp]
def Java_jcuda_jcufft_JCufft_cufftExecD2ZNative (env : Env σ) (handle : Option Nat)
    (rIdata cOdata : Option Nat) (w : World σ) : Option Int × World σ :=
  match handle with
  | none => (some env.JCUFFT_INTERNAL_ERROR,
      ThrowByName "java/lang/NullPointerException" "Parameter 'handle' is null for cufftExecD2Z" w)
  | some handle =>
  match rIdata with
  | none => (some env.JCUFFT_INTERNAL_ERROR,
      ThrowByName "java/lang/NullPointerException" "Parameter 'rIdata' is null for cufftExecD2Z" w)
  | some rIdata =>
  match cOdata with
  | none => (some env.JCUFFT_INTERNAL_ERROR,
      ThrowByName "java/lang/NullPointerException" "Parameter 'cOdata' is null for cufftExecD2Z" w)
  | some cOdata =>
    let w := Logger.log LogLevel.LOG_TRACE "Executing cufftExecD2Z\n" [] w
    let (nativePlan, w) := GetIntField handle w
    let (nativeRIData, w) := getPointer rIdata w
    let (nativeCOData, w) := getPointer cOdata w
    let (reply, w) := callNative env (NativeCall.cufftExecD2Z nativePlan nativeRIData nativeCOData) w
    (some reply.result, w)

/-- `Java_jcuda_jcufft_JCufft_cufftExecZ2DNative`. -/
@[simp]
def Java_jcuda_jcufft_JCufft_cufftExecZ2DNative (env : Env σ) (handle : Option Nat)
    (cIdata rOdata : Option Nat) (w : World σ) : Option Int × World σ :=
  match handle with
  | none => (some env.JCUFFT_INTERNAL_ERROR,
      ThrowByName "java/lang/NullPointerException" "Parameter 'handle' is null for cufftExecZ2D" w)
  | some handle =>
  match cIdata with
  | none => (some env.JCUFFT_INTERNAL_ERROR,
      ThrowByName "java/lang/NullPointerException" "Parameter 'cIdata' is null for cufftExecZ2D" w)
  | some cIdata =>
  match rOdata with
  | none => (some env.JCUFFT_INTERNAL_ERROR,
      ThrowByName "java/lang/NullPointerException" "Parameter 'rOdata' is null for cufftExecZ2D" w)
  | some rOdata =>
    let w := Logger.log LogLevel.LOG_TRACE "Executing cufftExecZ2D\n" [] w
    let (nativePlan, w) := GetIntField handle w
    let (nativeCIData, w) := getPointer cIdata w
    let (nativeROData, w) := getPointer rOdata w
    let (reply, w) := callNative env (NativeCall.cufftExecZ2D nativePlan nativeCIData nativeROData) w
    (some reply.result, w)

/-- `Java_jcuda_jcufft_JCufft_cufftSetStreamNative`. -/
@[simp]
def Java_jcuda_jcufft_JCufft_cufftSetStreamNative (env : Env σ) (handle : Option Nat)
    (stream : Option Nat) (w : World σ) : Option Int × World σ :=
  match handle with
  | none => (some env.JCUFFT_INTERNAL_ERROR,
      ThrowByName "java/lang/NullPointerException" "Parameter 'handle' is null for cufftSetStream" w)
  | some handle =>
  match stream with
  | none => (some env.JCUFFT_INTERNAL_ERROR,
      ThrowByName "java/lang/NullPointerException" "Parameter 'stream' is null for cufftSetStream" w)
  | some stream =>
    let w := Logger.log LogLevel.LOG_TRACE "Executing cufftSetStream\n" [] w
    let (nativePlan, w) := GetIntField handle w
    let (nativeStream, w) := getNativePointerValue stream w
    let (reply, w) := callNative env (NativeCall.cufftSetStream nativePlan nativeStream) w
    (some reply.result, w)

/-- `Java_jcuda_jcufft_JCufft_cufftSetCompatibilityModeNative`. -/
@[simp]
def Java_jcuda_jcufft_JCufft_cufftSetCompatibilityModeNative (env : Env σ) (_plan : Option Nat)
    (_mode : Int) (w : World σ) : Option Int × World σ :=
  (some env.JCUFFT_INTERNAL_ERROR,
    ThrowByName "java/lang/UnsupportedOperationException"
      "Function cufftSetCompatibilityMode was removed in CUDA version 9.1." w)

/-- One invocation of a bridge function from Java: the native method of class
`jcuda.jcufft.JCufft` and its arguments, in the order of the JNI signature. -/
inductive Call where
  | setLogLevel (logLevel : Int)
  | cufftGetVersionNative (version : Option Nat)
  | cufftGetPropertyNative (type : Int) (value : Option Nat)
  | cufftPlan1dNative (handle : Option Nat) (nx type batch : Int)
  | cufftPlan2dNative (handle : Option Nat) (nx ny type : Int)
  | cufftPlan3dNative (handle : Option Nat) (nx ny nz type : Int)
  | cufftPlanManyNative (handle : Option Nat) (rank : Int) (n inembed : Option Nat) (istride idist : Int) (onembed : Option Nat) (ostride odist : Int) (type batch : Int)
  | cufftMakePlan1dNative (plan : Option Nat) (nx type batch : Int) (workSize : Option Nat)
  | cufftMakePlan2dNative (plan : Option Nat) (nx ny type : Int) (workSize : Option Nat)
  | cufftMakePlan3dNative (plan : Option Nat) (nx ny nz type : Int) (workSize : Option Nat)
  | cufftMakePlanManyNative (plan : Option Nat) (rank : Int) (n inembed : Option Nat) (istride idist : Int) (onembed : Option Nat) (ostride odist : Int) (type batch : Int) (workSize : Option Nat)
  | cufftMakePlanManyNative64 (plan : Option Nat) (rank : Int) (n inembed : Option Nat) (istride idist : Int) (onembed : Option Nat) (ostride odist : Int) (type batch : Int) (workSize : Option Nat)
  | cufftGetSizeMany64Native (plan : Option Nat) (rank : Int) (n inembed : Option Nat) (istride idist : Int) (onembed : Option Nat) (ostride odist : Int) (type batch : Int) (workSize : Option Nat)
  | cufftEstimate1dNative (nx type batch : Int) (workSize : Option Nat)
  | cufftEstimate2dNative (nx ny type : Int) (workSize : Option Nat)
  | cufftEstimate3dNative (nx ny nz type : Int) (workSize : Option Nat)
  | cufftEstimateManyNative (rank : Int) (n inembed : Option Nat) (istride idist : Int) (onembed : Option Nat) (ostride odist : Int) (type batch : Int) (workSize : Option Nat)
  | cufftCreateNative (handle : Option Nat)
  | cufftGetSize1dNative (handle : Option Nat) (nx type batch : Int) (workSize : Option Nat)
  | cufftGetSize2dNative (handle : Option Nat) (nx ny type : Int) (workSize : Option Nat)
  | cufftGetSize3dNative (handle : Option Nat) (nx ny nz type : Int) (workSize : Option Nat)
  | cufftGetSizeManyNative (handle : Option Nat) (rank : Int) (n inembed : Option Nat) (istride idist : Int) (onembed : Option Nat) (ostride odist : Int) (type batch : Int) (workSize : Option Nat)
  | cufftGetSizeNative (handle : Option Nat) (workSize : Option Nat)
  | cufftSetWorkAreaNative (handle : Option Nat) (workArea : Option Nat)
  | cufftSetAutoAllocationNative (handle : Option Nat) (autoAllocate : Int)
  | cufftDestroyNative (handle : Option Nat)
  | cufftExecC2CNative (handle cIdata cOdata : Option Nat) (direction : Int)
  | cufftExecR2CNative (handle rIdata cOdata : Option Nat)
  | cufftExecC2RNative (handle cIdata rOdata : Option Nat)
  | cufftExecZ2ZNative (handle cIdata cOdata : Option Nat) (direction : Int)
  | cufftExecD2ZNative (handle rIdata cOdata : Option Nat)
  | cufftExecZ2DNative (handle cIdata rOdata : Option Nat)
  | cufftSetStreamNative (handle : Option Nat) (stream : Option Nat)
  | cufftSetCompatibilityModeNative (plan : Option Nat) (mode : Int)

/-- Run one bridge invocation: the returned `jint` (`none` for `void`) and the
world afterwards. -/
def Call.run (env : Env σ) (c : Call) (w : World σ) : Option Int × World σ :=
  match c with
  | Call.setLogLevel logLevel =>
    Java_jcuda_jcufft_JCufft_setLogLevel env logLevel w
  | Call.cufftGetVersionNative version =>
    Java_jcuda_jcufft_JCufft_cufftGetVersionNative env version w
  | Call.cufftGetPropertyNative type value =>
    Java_jcuda_jcufft_JCufft_cufftGetPropertyNative env type value w
  | Call.cufftPlan1dNative handle nx type batch =>
    Java_jcuda_jcufft_JCufft_cufftPlan1dNative env handle nx type batch w
  | Call.cufftPlan2dNative handle nx ny type =>
    Java_jcuda_jcufft_JCufft_cufftPlan2dNative env handle nx ny type w
  | Call.cufftPlan3dNative handle nx ny nz type =>
    Java_jcuda_jcufft_JCufft_cufftPlan3dNative env handle nx ny nz type w
  | Call.cufftPlanManyNative handle rank n inembed istride idist onembed ostride odist type batch =>
    Java_jcuda_jcufft_JCufft_cufftPlanManyNative env handle rank n inembed istride idist onembed ostride odist type batch w
  | Call.cufftMakePlan1dNative plan nx type batch workSize =>
    Java_jcuda_jcufft_JCufft_cufftMakePlan1dNative env plan nx type batch workSize w
  | Call.cufftMakePlan2dNative plan nx ny type workSize =>
    Java_jcuda_jcufft_JCufft_cufftMakePlan2dNative env plan nx ny type workSize w
  | Call.cufftMakePlan3dNative plan nx ny nz type workSize =>
    Java_jcuda_jcufft_JCufft_cufftMakePlan3dNative env plan nx ny nz type workSize w
  | Call.cufftMakePlanManyNative plan rank n inembed istride idist onembed ostride odist type batch workSize =>
    Java_jcuda_jcufft_JCufft_cufftMakePlanManyNative env plan rank n inembed istride idist onembed ostride odist type batch workSize w
  | Call.cufftMakePlanManyNative64 plan rank n inembed istride idist onembed ostride odist type batch workSize =>
    Java_jcuda_jcufft_JCufft_cufftMakePlanManyNative64 env plan rank n inembed istride idist onembed ostride odist type batch workSize w
  | Call.cufftGetSizeMany64Native plan rank n inembed istride idist onembed ostride odist type batch workSize =>
    Java_jcuda_jcufft_JCufft_cufftGetSizeMany64Native env plan rank n inembed istride idist onembed ostride odist type batch workSize w
  | Call.cufftEstimate1dNative nx type batch workSize =>
    Java_jcuda_jcufft_JCufft_cufftEstimate1dNative env nx type batch workSize w
  | Call.cufftEstimate2dNative nx ny type workSize =>
    Java_jcuda_jcufft_JCufft_cufftEstimate2dNative env nx ny type workSize w
  | Call.cufftEstimate3dNative nx ny nz type workSize =>
    Java_jcuda_jcufft_JCufft_cufftEstimate3dNative env nx ny nz type workSize w
  | Call.cufftEstimateManyNative rank n inembed istride idist onembed ostride odist type batch workSize =>
    Java_jcuda_jcufft_JCufft_cufftEstimateManyNative env rank n inembed istride idist onembed ostride odist type batch workSize w
  | Call.cufftCreateNative handle =>
    Java_jcuda_jcufft_JCufft_cufftCreateNative env handle w
  | Call.cufftGetSize1dNative handle nx type batch workSize =>
    Java_jcuda_jcufft_JCufft_cufftGetSize1dNative env handle nx type batch workSize w
  | Call.cufftGetSize2dNative handle nx ny type workSize =>
    Java_jcuda_jcufft_JCufft_cufftGetSize2dNative env handle nx ny type workSize w
  | Call.cufftGetSize3dNative handle nx ny nz type workSize =>
    Java_jcuda_jcufft_JCufft_cufftGetSize3dNative env handle nx ny nz type workSize w
  | Call.cufftGetSizeManyNative handle rank n inembed istride idist onembed ostride odist type batch workSize =>
    Java_jcuda_jcufft_JCufft_cufftGetSizeManyNative env handle rank n inembed istride idist onembed ostride odist type batch workSize w
  | Call.cufftGetSizeNative handle workSize =>
    Java_jcuda_jcufft_JCufft_cufftGetSizeNative env handle workSize w
  | Call.cufftSetWorkAreaNative handle workArea =>
    Java_jcuda_jcufft_JCufft_cufftSetWorkAreaNative env handle workArea w
  | Call.cufftSetAutoAllocationNative handle autoAllocate =>
    Java_jcuda_jcufft_JCufft_cufftSetAutoAllocationNative env handle autoAllocate w
  | Call.cufftDestroyNative handle =>
    Java_jcuda_jcufft_JCufft_cufftDestroyNative env handle w
  | Call.cufftExecC2CNative handle cIdata cOdata direction =>
    Java_jcuda_jcufft_JCufft_cufftExecC2CNative env handle cIdata cOdata direction w
  | Call.cufftExecR2CNative handle rIdata cOdata =>
    Java_jcuda_jcufft_JCufft_cufftExecR2CNative env handle rIdata cOdata w
  | Call.cufftExecC2RNative handle cIdata rOdata =>
    Java_jcuda_jcufft_JCufft_cufftExecC2RNative env handle cIdata rOdata w
  | Call.cufftExecZ2ZNative handle cIdata cOdata direction =>
    Java_jcuda_jcufft_JCufft_cufftExecZ2ZNative env handle cIdata cOdata direction w
  | Call.cufftExecD2ZNative handle rIdata cOdata =>
    Java_jcuda_jcufft_JCufft_cufftExecD2ZNative env handle rIdata cOdata w
  | Call.cufftExecZ2DNative handle cIdata rOdata =>
    Java_jcuda_jcufft_JCufft_cufftExecZ2DNative env handle cIdata rOdata w
  | Call.cufftSetStreamNative handle stream =>
    Java_jcuda_jcufft_JCufft_cufftSetStreamNative env handle stream w
  | Call.cufftSetCompatibilityModeNative plan mode =>
    Java_jcuda_jcufft_JCufft_cufftSetCompatibilityModeNative env plan mode w

/-- The arguments a bridge function compares with `NULL`, in the order of its
`if (... == NULL)` statements: the name of the parameter in the function's
signature, and whether the argument is null in this invocation. -/
def Call.nullChecks (c : Call) : List (String × Bool) :=
  match c with
  | Call.setLogLevel _ => []
  | Call.cufftGetVersionNative version => [("version", version.isNone)]
  | Call.cufftGetPropertyNative _ value => [("value", value.isNone)]
  | Call.cufftPlan1dNative handle _ _ _ => [("handle", handle.isNone)]
  | Call.cufftPlan2dNative handle _ _ _ => [("handle", handle.isNone)]
  | Call.cufftPlan3dNative handle _ _ _ _ => [("handle", handle.isNone)]
  | Call.cufftPlanManyNative handle _ n _ _ _ _ _ _ _ _ => [("handle", handle.isNone), ("n", n.isNone)]
  | Call.cufftMakePlan1dNative plan _ _ _ workSize => [("plan", plan.isNone), ("workSize", workSize.isNone)]
  | Call.cufftMakePlan2dNative plan _ _ _ workSize => [("plan", plan.isNone), ("workSize", workSize.isNone)]
  | Call.cufftMakePlan3dNative plan _ _ _ _ workSize => [("plan", plan.isNone), ("workSize", workSize.isNone)]
  | Call.cufftMakePlanManyNative plan _ n _ _ _ _ _ _ _ _ workSize => [("plan", plan.isNone), ("n", n.isNone), ("workSize", workSize.isNone)]
  | Call.cufftMakePlanManyNative64 plan _ n _ _ _ _ _ _ _ _ workSize => [("plan", plan.isNone), ("n", n.isNone), ("workSize", workSize.isNone)]
  | Call.cufftGetSizeMany64Native plan _ n _ _ _ _ _ _ _ _ workSize => [("plan", plan.isNone), ("n", n.isNone), ("workSize", workSize.isNone)]
  | Call.cufftEstimate1dNative _ _ _ workSize => [("workSize", workSize.isNone)]
  | Call.cufftEstimate2dNative _ _ _ workSize => [("workSize", workSize.isNone)]
  | Call.cufftEstimate3dNative _ _ _ _ workSize => [("workSize", workSize.isNone)]
  | Call.cufftEstimateManyNative _ n _ _ _ _ _ _ _ _ workSize => [("n", n.isNone), ("workSize", workSize.isNone)]
  | Call.cufftCreateNative handle => [("handle", handle.isNone)]
  | Call.cufftGetSize1dNative handle _ _ _ workSize => [("handle", handle.isNone), ("workSize", workSize.isNone)]
  | Call.cufftGetSize2dNative handle _ _ _ workSize => [("handle", handle.isNone), ("workSize", workSize.isNone)]
  | Call.cufftGetSize3dNative handle _ _ _ _ workSize => [("handle", handle.isNone), ("workSize", workSize.isNone)]
  | Call.cufftGetSizeManyNative handle _ n _ _ _ _ _ _ _ _ workSize => [("handle", handle.isNone), ("n", n.isNone), ("workSize", workSize.isNone)]
  | Call.cufftGetSizeNative handle workSize => [("handle", handle.isNone), ("workSize", workSize.isNone)]
  | Call.cufftSetWorkAreaNative handle workArea => [("handle", handle.isNone), ("workArea", workArea.isNone)]
  | Call.cufftSetAutoAllocationNative handle _ => [("handle", handle.isNone)]
  | Call.cufftDestroyNative handle => [("handle", handle.isNone)]
  | Call.cufftExecC2CNative handle cIdata cOdata _ => [("handle", handle.isNone), ("cIdata", cIdata.isNone), ("cOdata", cOdata.isNone)]
  | Call.cufftExecR2CNative handle rIdata cOdata => [("handle", handle.isNone), ("rIdata", rIdata.isNone), ("cOdata", cOdata.isNone)]
  | Call.cufftExecC2RNative handle cIdata rOdata => [("handle", handle.isNone), ("cIdata", cIdata.isNone), ("rOdata", rOdata.isNone)]
  | Call.cufftExecZ2ZNative handle cIdata cOdata _ => [("handle", handle.isNone), ("cIdata", cIdata.isNone), ("cOdata", cOdata.isNone)]
  | Call.cufftExecD2ZNative handle rIdata cOdata => [("handle", handle.isNone), ("rIdata", rIdata.isNone), ("cOdata", cOdata.isNone)]
  | Call.cufftExecZ2DNative handle cIdata rOdata => [("handle", handle.isNone), ("cIdata", cIdata.isNone), ("rOdata", rOdata.isNone)]
  | Call.cufftSetStreamNative handle stream => [("handle", handle.isNone), ("stream", stream.isNone)]
  | Call.cufftSetCompatibilityModeNative _ _ => []

/-- The events one invocation adds to the world. -/
def newEvents (env : Env σ) (c : Call) (w : World σ) : List Event :=
  (c.run env w).2.events.drop w.events.length

/-- The CUFFT call of an event, if it is one. -/
def Event.nativeCall : Event → Option NativeCall
  | Event.native call => some call
  | _ => none

/-- The exception of an event, if it raises one: class name and message. -/
def Event.exception : Event → Option (String × String)
  | Event.throwByName className message => some (className, message)
  | _ => none

/-- The log message of an event, if it logs at the given level: format and arguments. -/
def Event.logged (level : LogLevel) : Event → Option (String × List Int)
  | Event.log l format args => if l = level then some (format, args) else none
  | _ => none

/-- Whether an event is an access to the `plan` field of a handle. -/
def Event.isFieldAccess : Event → Bool
  | Event.getIntField _ => true
  | Event.setIntField _ _ => true
  | _ => false

/-- Whether an event is an access to a Java array. -/
def Event.isArrayAccess : Event → Bool
  | Event.getArrayContents _ => true
  | Event.set _ _ _ => true
  | _ => false

/-- The CUFFT calls among some events, in order. -/
def nativeCalls (es : List Event) : List NativeCall :=
  es.filterMap Event.nativeCall

/-- The exceptions raised among some events, in order. -/
def exceptions (es : List Event) : List (String × String) :=
  es.filterMap Event.exception

/-- The log messages of one level among some events, in order. -/
def logged (level : LogLevel) (es : List Event) : List (String × List Int) :=
  es.filterMap (Event.logged level)

/-- Every argument the invocation null-checks is non-null. -/
def Call.allNonNull (c : Call) : Bool :=
  c.nullChecks.all (fun p => !p.2)

/-- The Java heap of a world: what a caller can observe of its objects. -/
def World.heap (w : World σ) : (Nat → Int) × (Nat → List Int) × (Nat → List Int) :=
  (w.plan, w.intArrays, w.longArrays)

/-- The transform-type tag of an invocation: the `type` argument of the bridge
functions that hand it to `getCufftType`. -/
def Call.typeTag (c : Call) : Option Int :=
  match c with
  | Call.cufftPlan1dNative _ _ type _ => some type
  | Call.cufftPlan2dNative _ _ _ type => some type
  | Call.cufftPlan3dNative _ _ _ _ type => some type
  | Call.cufftPlanManyNative _ _ _ _ _ _ _ _ _ type _ => some type
  | Call.cufftMakePlan1dNative _ _ type _ _ => some type
  | Call.cufftMakePlan2dNative _ _ _ type _ => some type
  | Call.cufftMakePlan3dNative _ _ _ _ type _ => some type
  | Call.cufftMakePlanManyNative _ _ _ _ _ _ _ _ _ type _ _ => some type
  | Call.cufftMakePlanManyNative64 _ _ _ _ _ _ _ _ _ type _ _ => some type
  | Call.cufftGetSizeMany64Native _ _ _ _ _ _ _ _ _ type _ _ => some type
  | Call.cufftEstimate1dNative _ type _ _ => some type
  | Call.cufftEstimate2dNative _ _ type _ => some type
  | Call.cufftEstimate3dNative _ _ _ type _ => some type
  | Call.cufftEstimateManyNative _ _ _ _ _ _ _ _ type _ _ => some type
  | Call.cufftGetSize1dNative _ _ type _ _ => some type
  | Call.cufftGetSize2dNative _ _ _ type _ => some type
  | Call.cufftGetSize3dNative _ _ _ _ type _ => some type
  | Call.cufftGetSizeManyNative _ _ _ _ _ _ _ _ _ type _ _ => some type
  | _ => none

/-- The same invocation with another transform-type tag. -/
def Call.withTypeTag (t : Int) (c : Call) : Call :=
  match c with
  | Call.cufftPlan1dNative handle nx _ batch =>
    Call.cufftPlan1dNative handle nx t batch
  | Call.cufftPlan2dNative handle nx ny _ =>
    Call.cufftPlan2dNative handle nx ny t
  | Call.cufftPlan3dNative handle nx ny nz _ =>
    Call.cufftPlan3dNative handle nx ny nz t
  | Call.cufftPlanManyNative handle rank n inembed istride idist onembed ostride odist _ batch =>
    Call.cufftPlanManyNative handle rank n inembed istride idist onembed ostride odist t batch
  | Call.cufftMakePlan1dNative plan nx _ batch workSize =>
    Call.cufftMakePlan1dNative plan nx t batch workSize
  | Call.cufftMakePlan2dNative plan nx ny _ workSize =>
    Call.cufftMakePlan2dNative plan nx ny t workSize
  | Call.cufftMakePlan3dNative plan nx ny nz _ workSize =>
    Call.cufftMakePlan3dNative plan nx ny nz t workSize
  | Call.cufftMakePlanManyNative plan rank n inembed istride idist onembed ostride odist _ batch workSize =>
    Call.cufftMakePlanManyNative plan rank n inembed istride idist onembed ostride odist t batch workSize
  | Call.cufftMakePlanManyNative64 plan rank n inembed istride idist onembed ostride odist _ batch workSize =>
    Call.cufftMakePlanManyNative64 plan rank n inembed istride idist onembed ostride odist t batch workSize
  | Call.cufftGetSizeMany64Native plan rank n inembed istride idist onembed ostride odist _ batch workSize =>
    Call.cufftGetSizeMany64Native plan rank n inembed istride idist onembed ostride odist t batch workSize
  | Call.cufftEstimate1dNative nx _ batch workSize =>
    Call.cufftEstimate1dNative nx t batch workSize
  | Call.cufftEstimate2dNative nx ny _ workSize =>
    Call.cufftEstimate2dNative nx ny t workSize
  | Call.cufftEstimate3dNative nx ny nz _ workSize =>
    Call.cufftEstimate3dNative nx ny nz t workSize
  | Call.cufftEstimateManyNative rank n inembed istride idist onembed ostride odist _ batch workSize =>
    Call.cufftEstimateManyNative rank n inembed istride idist onembed ostride odist t batch workSize
  | Call.cufftGetSize1dNative handle nx _ batch workSize =>
    Call.cufftGetSize1dNative handle nx t batch workSize
  | Call.cufftGetSize2dNative handle nx ny _ workSize =>
    Call.cufftGetSize2dNative handle nx ny t workSize
  | Call.cufftGetSize3dNative handle nx ny nz _ workSize =>
    Call.cufftGetSize3dNative handle nx ny nz t workSize
  | Call.cufftGetSizeManyNative handle rank n inembed istride idist onembed ostride odist _ batch workSize =>
    Call.cufftGetSizeManyNative handle rank n inembed istride idist onembed ostride odist t batch workSize
  | c => c

/-- The caller-supplied array an invocation writes its out-value to: the
`workSize`, `version` or `value` argument, when it is non-null. -/
def Call.outArray (c : Call) : Option ArrayRef :=
  match c with
  | Call.cufftGetVersionNative version => version.map ArrayRef.jintArray
  | Call.cufftGetPropertyNative _ value => value.map ArrayRef.jintArray
  | Call.cufftMakePlan1dNative _ _ _ _ workSize => workSize.map ArrayRef.jlongArray
  | Call.cufftMakePlan2dNative _ _ _ _ workSize => workSize.map ArrayRef.jlongArray
  | Call.cufftMakePlan3dNative _ _ _ _ _ workSize => workSize.map ArrayRef.jlongArray
  | Call.cufftMakePlanManyNative _ _ _ _ _ _ _ _ _ _ _ workSize => workSize.map ArrayRef.jlongArray
  | Call.cufftMakePlanManyNative64 _ _ _ _ _ _ _ _ _ _ _ workSize => workSize.map ArrayRef.jlongArray
  | Call.cufftGetSizeMany64Native _ _ _ _ _ _ _ _ _ _ _ workSize => workSize.map ArrayRef.jlongArray
  | Call.cufftEstimate1dNative _ _ _ workSize => workSize.map ArrayRef.jlongArray
  | Call.cufftEstimate2dNative _ _ _ workSize => workSize.map ArrayRef.jlongArray
  | Call.cufftEstimate3dNative _ _ _ _ workSize => workSize.map ArrayRef.jlongArray
  | Call.cufftEstimateManyNative _ _ _ _ _ _ _ _ _ _ workSize => workSize.map ArrayRef.jlongArray
  | Call.cufftGetSize1dNative _ _ _ _ workSize => workSize.map ArrayRef.jlongArray
  | Call.cufftGetSize2dNative _ _ _ _ workSize => workSize.map ArrayRef.jlongArray
  | Call.cufftGetSize3dNative _ _ _ _ _ workSize => workSize.map ArrayRef.jlongArray
  | Call.cufftGetSizeManyNative _ _ _ _ _ _ _ _ _ _ _ workSize => workSize.map ArrayRef.jlongArray
  | Call.cufftGetSizeNative _ workSize => workSize.map ArrayRef.jlongArray
  | _ => none

/-- The name of the Java native method of an invocation; the bridge function
is `Java_jcuda_jcufft_JCufft_` followed by it. -/
def Call.methodName (c : Call) : String :=
  match c with
  | Call.setLogLevel _ => "setLogLevel"
  | Call.cufftGetVersionNative _ => "cufftGetVersionNative"
  | Call.cufftGetPropertyNative _ _ => "cufftGetPropertyNative"
  | Call.cufftPlan1dNative _ _ _ _ => "cufftPlan1dNative"
  | Call.cufftPlan2dNative _ _ _ _ => "cufftPlan2dNative"
  | Call.cufftPlan3dNative _ _ _ _ _ => "cufftPlan3dNative"
  | Call.cufftPlanManyNative _ _ _ _ _ _ _ _ _ _ _ => "cufftPlanManyNative"
  | Call.cufftMakePlan1dNative _ _ _ _ _ => "cufftMakePlan1dNative"
  | Call.cufftMakePlan2dNative _ _ _ _ _ => "cufftMakePlan2dNative"
  | Call.cufftMakePlan3dNative _ _ _ _ _ _ => "cufftMakePlan3dNative"
  | Call.cufftMakePlanManyNative _ _ _ _ _ _ _ _ _ _ _ _ => "cufftMakePlanManyNative"
  | Call.cufftMakePlanManyNative64 _ _ _ _ _ _ _ _ _ _ _ _ => "cufftMakePlanManyNative64"
  | Call.cufftGetSizeMany64Native _ _ _ _ _ _ _ _ _ _ _ _ => "cufftGetSizeMany64Native"
  | Call.cufftEstimate1dNative _ _ _ _ => "cufftEstimate1dNative"
  | Call.cufftEstimate2dNative _ _ _ _ => "cufftEstimate2dNative"
  | Call.cufftEstimate3dNative _ _ _ _ _ => "cufftEstimate3dNative"
  | Call.cufftEstimateManyNative _ _ _ _ _ _ _ _ _ _ _ => "cufftEstimateManyNative"
  | Call.cufftCreateNative _ => "cufftCreateNative"
  | Call.cufftGetSize1dNative _ _ _ _ _ => "cufftGetSize1dNative"
  | Call.cufftGetSize2dNative _ _ _ _ _ => "cufftGetSize2dNative"
  | Call.cufftGetSize3dNative _ _ _ _ _ _ => "cufftGetSize3dNative"
  | Call.cufftGetSizeManyNative _ _ _ _ _ _ _ _ _ _ _ _ => "cufftGetSizeManyNative"
  | Call.cufftGetSizeNative _ _ => "cufftGetSizeNative"
  | Call.cufftSetWorkAreaNative _ _ => "cufftSetWorkAreaNative"
  | Call.cufftSetAutoAllocationNative _ _ => "cufftSetAutoAllocationNative"
  | Call.cufftDestroyNative _ => "cufftDestroyNative"
  | Call.cufftExecC2CNative _ _ _ _ => "cufftExecC2CNative"
  | Call.cufftExecR2CNative _ _ _ => "cufftExecR2CNative"
  | Call.cufftExecC2RNative _ _ _ => "cufftExecC2RNative"
  | Call.cufftExecZ2ZNative _ _ _ _ => "cufftExecZ2ZNative"
  | Call.cufftExecD2ZNative _ _ _ => "cufftExecD2ZNative"
  | Call.cufftExecZ2DNative _ _ _ => "cufftExecZ2DNative"
  | Call.cufftSetStreamNative _ _ => "cufftSetStreamNative"
  | Call.cufftSetCompatibilityModeNative _ _ => "cufftSetCompatibilityModeNative"

/-- The name of the CUFFT routine of a native call. -/
def NativeCall.name (call : NativeCall) : String :=
  match call with
  | NativeCall.cufftGetVersion => "cufftGetVersion"
  | NativeCall.cufftGetProperty _ => "cufftGetProperty"
  | NativeCall.cufftPlan1d _ _ _ _ => "cufftPlan1d"
  | NativeCall.cufftPlan2d _ _ _ _ => "cufftPlan2d"
  | NativeCall.cufftPlan3d _ _ _ _ _ => "cufftPlan3d"
  | NativeCall.cufftPlanMany _ _ _ _ _ _ _ _ _ _ _ => "cufftPlanMany"
  | NativeCall.cufftMakePlan1d _ _ _ _ => "cufftMakePlan1d"
  | NativeCall.cufftMakePlan2d _ _ _ _ => "cufftMakePlan2d"
  | NativeCall.cufftMakePlan3d _ _ _ _ _ => "cufftMakePlan3d"
  | NativeCall.cufftMakePlanMany _ _ _ _ _ _ _ _ _ _ _ => "cufftMakePlanMany"
  | NativeCall.cufftMakePlanMany64 _ _ _ _ _ _ _ _ _ _ _ => "cufftMakePlanMany64"
  | NativeCall.cufftGetSizeMany64 _ _ _ _ _ _ _ _ _ _ _ => "cufftGetSizeMany64"
  | NativeCall.cufftEstimate1d _ _ _ => "cufftEstimate1d"
  | NativeCall.cufftEstimate2d _ _ _ => "cufftEstimate2d"
  | NativeCall.cufftEstimate3d _ _ _ _ => "cufftEstimate3d"
  | NativeCall.cufftEstimateMany _ _ _ _ _ _ _ _ _ _ => "cufftEstimateMany"
  | NativeCall.cufftCreate _ => "cufftCreate"
  | NativeCall.cufftGetSize1d _ _ _ _ => "cufftGetSize1d"
  | NativeCall.cufftGetSize2d _ _ _ _ => "cufftGetSize2d"
  | NativeCall.cufftGetSize3d _ _ _ _ _ => "cufftGetSize3d"
  | NativeCall.cufftGetSizeMany _ _ _ _ _ _ _ _ _ _ _ => "cufftGetSizeMany"
  | NativeCall.cufftGetSize _ => "cufftGetSize"
  | NativeCall.cufftSetWorkArea _ _ => "cufftSetWorkArea"
  | NativeCall.cufftSetAutoAllocation _ _ => "cufftSetAutoAllocation"
  | NativeCall.cufftDestroy _ => "cufftDestroy"
  | NativeCall.cufftExecC2C _ _ _ _ => "cufftExecC2C"
  | NativeCall.cufftExecR2C _ _ _ => "cufftExecR2C"
  | NativeCall.cufftExecC2R _ _ _ => "cufftExecC2R"
  | NativeCall.cufftExecZ2Z _ _ _ _ => "cufftExecZ2Z"
  | NativeCall.cufftExecD2Z _ _ _ => "cufftExecD2Z"
  | NativeCall.cufftExecZ2D _ _ _ => "cufftExecZ2D"
  | NativeCall.cufftSetStream _ _ => "cufftSetStream"

/-- The `cufftType` argument of a native call, for the routines that have one. -/
def NativeCall.type (call : NativeCall) : Option cufftType :=
  match call with
  | NativeCall.cufftPlan1d _ _ type _ => some type
  | NativeCall.cufftPlan2d _ _ _ type => some type
  | NativeCall.cufftPlan3d _ _ _ _ type => some type
  | NativeCall.cufftPlanMany _ _ _ _ _ _ _ _ _ type _ => some type
  | NativeCall.cufftMakePlan1d _ _ type _ => some type
  | NativeCall.cufftMakePlan2d _ _ _ type => some type
  | NativeCall.cufftMakePlan3d _ _ _ _ type => some type
  | NativeCall.cufftMakePlanMany _ _ _ _ _ _ _ _ _ type _ => some type
  | NativeCall.cufftMakePlanMany64 _ _ _ _ _ _ _ _ _ type _ => some type
  | NativeCall.cufftGetSizeMany64 _ _ _ _ _ _ _ _ _ type _ => some type
  | NativeCall.cufftEstimate1d _ type _ => some type
  | NativeCall.cufftEstimate2d _ _ type => some type
  | NativeCall.cufftEstimate3d _ _ _ type => some type
  | NativeCall.cufftEstimateMany _ _ _ _ _ _ _ _ type _ => some type
  | NativeCall.cufftGetSize1d _ _ type _ => some type
  | NativeCall.cufftGetSize2d _ _ _ type => some type
  | NativeCall.cufftGetSize3d _ _ _ _ type => some type
  | NativeCall.cufftGetSizeMany _ _ _ _ _ _ _ _ _ type _ => some type
  | _ => none

/-- The `cufftHandle` argument of a native call (for the plan and create
routines: the content of the `cufftHandle *` on entry), for the routines that
have one. -/
def NativeCall.handle (call : NativeCall) : Option Int :=
  match call with
  | NativeCall.cufftPlan1d h _ _ _ => some h
  | NativeCall.cufftPlan2d h _ _ _ => some h
  | NativeCall.cufftPlan3d h _ _ _ _ => some h
  | NativeCall.cufftPlanMany h _ _ _ _ _ _ _ _ _ _ => some h
  | NativeCall.cufftMakePlan1d h _ _ _ => some h
  | NativeCall.cufftMakePlan2d h _ _ _ => some h
  | NativeCall.cufftMakePlan3d h _ _ _ _ => some h
  | NativeCall.cufftMakePlanMany h _ _ _ _ _ _ _ _ _ _ => some h
  | NativeCall.cufftMakePlanMany64 h _ _ _ _ _ _ _ _ _ _ => some h
  | NativeCall.cufftGetSizeMany64 h _ _ _ _ _ _ _ _ _ _ => some h
  | NativeCall.cufftCreate h => some h
  | NativeCall.cufftGetSize1d h _ _ _ => some h
  | NativeCall.cufftGetSize2d h _ _ _ => some h
  | NativeCall.cufftGetSize3d h _ _ _ _ => some h
  | NativeCall.cufftGetSizeMany h _ _ _ _ _ _ _ _ _ _ => some h
  | NativeCall.cufftGetSize h => some h
  | NativeCall.cufftSetWorkArea h _ => some h
  | NativeCall.cufftSetAutoAllocation h _ => some h
  | NativeCall.cufftDestroy h => some h
  | NativeCall.cufftExecC2C h _ _ _ => some h
  | NativeCall.cufftExecR2C h _ _ => some h
  | NativeCall.cufftExecC2R h _ _ => some h
  | NativeCall.cufftExecZ2Z h _ _ _ => some h
  | NativeCall.cufftExecD2Z h _ _ => some h
  | NativeCall.cufftExecZ2D h _ _ => some h
  | NativeCall.cufftSetStream h _ => some h
  | _ => none

/-- A method name without its first `Native`: `cufftPlan1dNative` gives
`cufftPlan1d`, `cufftMakePlanManyNative64` gives `cufftMakePlanMany64`. -/
def dropNative : List Char → List Char
  | 'N' :: 'a' :: 't' :: 'i' :: 'v' :: 'e' :: cs => cs
  | c :: cs => c :: dropNative cs
  | [] => []

/-- Run a sequence of invocations, one after the other. -/
def runAll (env : Env σ) : List Call → World σ → World σ
  | [], w => w
  | c :: cs, w => runAll env cs (c.run env w).2

/-- A CUFFT library stub: every routine reports success and leaves 7 in a handle
out-parameter, 4096 in a size out-parameter and 11000 in an int out-parameter. -/
def stubEnv : Env Unit where
  JCUFFT_INTERNAL_ERROR := 0xFF
  cufft := fun s _ => ({ result := 0, handle := 7, workSize := 4096, value := 11000 }, s)

/-- A world to start from: every handle has `plan = 0`, every `int[]` is empty,
every `long[]` is `{1024}`, nothing has happened yet. -/
def startWorld : World Unit where
  plan := fun _ => 0
  intArrays := fun _ => []
  longArrays := fun _ => [1024]
  pointers := fun r => 0x1000 * (r + 1)
  streams := fun r => 0x10 * (r + 1)
  lib := ()
  events := []

/-- The value `getCufftType` returns for a tag (it does not depend on the world). -/
def cufftTypeOf (type : Int) : cufftType :=
  (getCufftType type startWorld).1

/-- The events `getCufftType` adds for a tag (they do not depend on the world). -/
def typeLog (type : Int) : List Event :=
  (getCufftType type startWorld).2.events

/-- Whether the invocation is `cufftGetPropertyNative` with an out-array `value`
that has no element 0, so that storing the property does not succeed. -/
def Call.propertyStoreFails (c : Call) (w : World σ) : Bool :=
  match c with
  | Call.cufftGetPropertyNative _ (some value) => (w.intArrays value).isEmpty
  | _ => false

/-- A CUFFT library stub like `stubEnv`, except that it leaves `2 ^ 63` in a size
out-parameter. -/
def hugeSizeEnv : Env Unit where
  JCUFFT_INTERNAL_ERROR := 0xFF
  cufft := fun s _ => ({ result := 0, handle := 7, workSize := 2 ^ 63, value := 11000 }, s)

/-- The constant `JNI_VERSION_1_4` of `jni.h`. -/
def JNI_VERSION_1_4 : Int := 0x00010004

/-- The constant `JNI_ERR` of `jni.h`. -/
def JNI_ERR : Int := -1

/-- What `JNI_OnLoad` meets when the library is loaded: the value each of the
five steps returns. -/
structure LoadEnv where
  /-- return value of `jvm->GetEnv(&env, JNI_VERSION_1_4)`; zero is success -/
  GetEnv : Int
  /-- return value of `initJNIUtils(env)` -/
  initJNIUtils : Int
  /-- return value of `initPointerUtils(env)` -/
  initPointerUtils : Int
  /-- return value of `init(env, cls, "jcuda/jcufft/cufftHandle")` -/
  initClass : Bool
  /-- return value of `init(env, cls, cufftHandle_plan, "plan", "I")` -/
  initField : Bool

/-- One step of `JNI_OnLoad`. -/
inductive LoadStep where
  | GetEnv
  | log (level : LogLevel) (format : String)
  | initJNIUtils
  | initPointerUtils
  | initClass (name : String)
  | initField (name signature : String)
  deriving DecidableEq, Repr

/-- `JNI_OnLoad`: the returned `jint` and the steps attempted, in order. -/
def JNI_OnLoad (jvm : LoadEnv) : Int × List LoadStep :=
  if jvm.GetEnv ≠ 0 then (JNI_ERR, [LoadStep.GetEnv])
  else if jvm.initJNIUtils = JNI_ERR then
    (JNI_ERR, [LoadStep.GetEnv, LoadStep.log LogLevel.LOG_TRACE "Initializing JCufft\n",
      LoadStep.initJNIUtils])
  else if jvm.initPointerUtils = JNI_ERR then
    (JNI_ERR, [LoadStep.GetEnv, LoadStep.log LogLevel.LOG_TRACE "Initializing JCufft\n",
      LoadStep.initJNIUtils, LoadStep.initPointerUtils])
  else if !jvm.initClass then
    (JNI_ERR, [LoadStep.GetEnv, LoadStep.log LogLevel.LOG_TRACE "Initializing JCufft\n",
      LoadStep.initJNIUtils, LoadStep.initPointerUtils,
      LoadStep.initClass "jcuda/jcufft/cufftHandle"])
  else if !jvm.initField then
    (JNI_ERR, [LoadStep.GetEnv, LoadStep.log LogLevel.LOG_TRACE "Initializing JCufft\n",
      LoadStep.initJNIUtils, LoadStep.initPointerUtils,
      LoadStep.initClass "jcuda/jcufft/cufftHandle", LoadStep.initField "plan" "I"])
  else
    (JNI_VERSION_1_4, [LoadStep.GetEnv, LoadStep.log LogLevel.LOG_TRACE "Initializing JCufft\n",
      LoadStep.initJNIUtils, LoadStep.initPointerUtils,
      LoadStep.initClass "jcuda/jcufft/cufftHandle", LoadStep.initField "plan" "I"])

/-- Whether a step of `JNI_OnLoad` succeeds, as `JNI_OnLoad` tests it; the log
call cannot fail. -/
def LoadEnv.succeeds (jvm : LoadEnv) : LoadStep → Bool
  | LoadStep.GetEnv => jvm.GetEnv = 0
  | LoadStep.log _ _ => true
  | LoadStep.initJNIUtils => jvm.initJNIUtils ≠ JNI_ERR
  | LoadStep.initPointerUtils => jvm.initPointerUtils ≠ JNI_ERR
  | LoadStep.initClass _ => jvm.initClass
  | LoadStep.initField _ _ => jvm.initField

/-- The five steps of `JNI_OnLoad` that can fail, in the order of the source. -/
def loadSteps : List LoadStep :=
  [LoadStep.GetEnv, LoadStep.initJNIUtils, LoadStep.initPointerUtils,
    LoadStep.initClass "jcuda/jcufft/cufftHandle", LoadStep.initField "plan" "I"]

/-- The handle argument of the operations that take a handle without being a
plan-construction or create call: destroy, setWorkArea, setAutoAllocation,
setStream, getSize, getSize1d/2d/3d/Many/Many64 and the six exec operations. -/
def Call.usedHandle (c : Call) : Option (Option Nat) :=
  match c with
  | Call.cufftDestroyNative handle => some handle
  | Call.cufftSetWorkAreaNative handle _ => some handle
  | Call.cufftSetAutoAllocationNative handle _ => some handle
  | Call.cufftSetStreamNative handle _ => some handle
  | Call.cufftGetSizeNative handle _ => some handle
  | Call.cufftGetSize1dNative handle _ _ _ _ => some handle
  | Call.cufftGetSize2dNative handle _ _ _ _ => some handle
  | Call.cufftGetSize3dNative handle _ _ _ _ _ => some handle
  | Call.cufftGetSizeManyNative handle _ _ _ _ _ _ _ _ _ _ _ => some handle
  | Call.cufftGetSizeMany64Native plan _ _ _ _ _ _ _ _ _ _ _ => some plan
  | Call.cufftExecC2CNative handle _ _ _ => some handle
  | Call.cufftExecR2CNative handle _ _ => some handle
  | Call.cufftExecC2RNative handle _ _ => some handle
  | Call.cufftExecZ2ZNative handle _ _ _ => some handle
  | Call.cufftExecD2ZNative handle _ _ => some handle
  | Call.cufftExecZ2DNative handle _ _ => some handle
  | _ => none

/-- The handle argument of the five make-plan operations: makePlan1d, makePlan2d,
makePlan3d, makePlanMany and makePlanMany64. -/
def Call.madePlan (c : Call) : Option (Option Nat) :=
  match c with
  | Call.cufftMakePlan1dNative plan _ _ _ _ => some plan
  | Call.cufftMakePlan2dNative plan _ _ _ _ => some plan
  | Call.cufftMakePlan3dNative plan _ _ _ _ _ => some plan
  | Call.cufftMakePlanManyNative plan _ _ _ _ _ _ _ _ _ _ _ => some plan
  | Call.cufftMakePlanManyNative64 plan _ _ _ _ _ _ _ _ _ _ _ => some plan
  | _ => none

/-- The embedding descriptors `inembed` and `onembed` of the six many-family
operations: planMany, makePlanMany, makePlanMany64, estimateMany, getSizeMany and
getSizeMany64. -/
def Call.embeddings (c : Call) : Option (Option Nat × Option Nat) :=
  match c with
  | Call.cufftPlanManyNative _ _ _ inembed _ _ onembed _ _ _ _ => some (inembed, onembed)
  | Call.cufftMakePlanManyNative _ _ _ inembed _ _ onembed _ _ _ _ _ => some (inembed, onembed)
  | Call.cufftMakePlanManyNative64 _ _ _ inembed _ _ onembed _ _ _ _ _ => some (inembed, onembed)
  | Call.cufftEstimateManyNative _ _ inembed _ _ onembed _ _ _ _ _ => some (inembed, onembed)
  | Call.cufftGetSizeManyNative _ _ _ inembed _ _ onembed _ _ _ _ _ => some (inembed, onembed)
  | Call.cufftGetSizeMany64Native _ _ _ inembed _ _ onembed _ _ _ _ _ => some (inembed, onembed)
  | _ => none

/-- The `inembed` and `onembed` arrays of a native call of the many-family. -/
def NativeCall.embeddings (call : NativeCall) : Option (Option (List Int) × Option (List Int)) :=
  match call with
  | NativeCall.cufftPlanMany _ _ _ inembed _ _ onembed _ _ _ _ => some (inembed, onembed)
  | NativeCall.cufftMakePlanMany _ _ _ inembed _ _ onembed _ _ _ _ => some (inembed, onembed)
  | NativeCall.cufftMakePlanMany64 _ _ _ inembed _ _ onembed _ _ _ _ => some (inembed, onembed)
  | NativeCall.cufftEstimateMany _ _ inembed _ _ onembed _ _ _ _ => some (inembed, onembed)
  | NativeCall.cufftGetSizeMany _ _ _ inembed _ _ onembed _ _ _ _ => some (inembed, onembed)
  | NativeCall.cufftGetSizeMany64 _ _ _ inembed _ _ onembed _ _ _ _ => some (inembed, onembed)
  | _ => none

/-- The name of the first null-checked parameter whose argument is null, in the
order of the checks. -/
def Call.firstNull (c : Call) : Option String :=
  (c.nullChecks.find? (fun p => p.2)).map (fun p => p.1)

/-- Whether the invocation has a non-null out-array (`workSize`, `version` or
`value`) without an element 0. -/
def Call.outArrayEmpty (c : Call) (w : World σ) : Bool :=
  match c.outArray with
  | some (ArrayRef.jintArray a) => (w.intArrays a).isEmpty
  | some (ArrayRef.jlongArray a) => (w.longArrays a).isEmpty
  | none => false

/-- The write of an event to the `plan` field of a handle, if it is one: the
handle and the value written. -/
def Event.fieldWrite : Event → Option (Nat × Int)
  | Event.setIntField obj value => some (obj, value)
  | _ => none

/-- The message `Parameter '<p>' is null for <op>` for a parameter name and the
CUFFT routine that the invocation wraps. -/
def nullMessage (parameter : String) (c : Call) : String :=
  "Parameter '" ++ parameter ++ "' is null for " ++ String.mk (dropNative c.methodName.toList)

/-- The invocations whose first null argument is the one of the parameter `handle`
of `cufftGetSizeManyNative`, `cufftGetSizeNative`, `cufftSetWorkAreaNative` or
`cufftSetAutoAllocationNative`. -/
def Call.nullHandleOfFour (c : Call) : Bool :=
  match c with
  | Call.cufftGetSizeManyNative none _ _ _ _ _ _ _ _ _ _ _ => true
  | Call.cufftGetSizeNative none _ => true
  | Call.cufftSetWorkAreaNative none _ => true
  | Call.cufftSetAutoAllocationNative none _ => true
  | _ => false

/-- A load in which `initPointerUtils` reports `JNI_ERR` and every other step
succeeds. -/
def pointerUtilsFail : LoadEnv where
  GetEnv := 0
  initJNIUtils := JNI_VERSION_1_4
  initPointerUtils := JNI_ERR
  initClass := true
  initField := true

/-- A world like `startWorld` in which every handle has `plan = 7`. -/
def planSevenWorld : World Unit :=
  { startWorld with plan := fun _ => 7 }

end JCufft

namespace JCufft
variable {σ : Type}

/-! ## The helpers in normal form -/

theorem getCufftType_eq (type : Int) (w : World σ) :
    getCufftType type w = (cufftTypeOf type, { w with events := w.events ++ typeLog type }) := by
  unfold cufftTypeOf typeLog getCufftType
  split_ifs <;> simp [Logger.log, World.emit, startWorld]

theorem set_jlongArray_eq (ja index : Nat) (value : Int) (w : World σ) :
    set_jlongArray ja index value w = (decide (index < (w.longArrays ja).length),
      { w with
        longArrays := Function.update w.longArrays ja ((w.longArrays ja).set index value),
        events := w.events ++ Event.set (ArrayRef.jlongArray ja) index value ::
          if index < (w.longArrays ja).length then []
          else [Event.throwByName "java/lang/ArrayIndexOutOfBoundsException"
            "Array index out of bounds"] }) := by
  unfold set_jlongArray
  by_cases h : index < (w.longArrays ja).length
  · simp [World.emit, h]
  · have h2 : (w.longArrays ja).set index value = w.longArrays ja :=
      List.set_eq_of_length_le (not_lt.mp h)
    simp [World.emit, ThrowByName, h, h2]

theorem set_jintArray_eq (ja index : Nat) (value : Int) (w : World σ) :
    set_jintArray ja index value w = (decide (index < (w.intArrays ja).length),
      { w with
        intArrays := Function.update w.intArrays ja ((w.intArrays ja).set index value),
        events := w.events ++ Event.set (ArrayRef.jintArray ja) index value ::
          if index < (w.intArrays ja).length then []
          else [Event.throwByName "java/lang/ArrayIndexOutOfBoundsException"
            "Array index out of bounds"] }) := by
  unfold set_jintArray
  by_cases h : index < (w.intArrays ja).length
  · simp [World.emit, h]
  · have h2 : (w.intArrays ja).set index value = w.intArrays ja :=
      List.set_eq_of_length_le (not_lt.mp h)
    simp [World.emit, ThrowByName, h, h2]

theorem nativeCall_typeLog (type : Int) :
    List.filterMap Event.nativeCall (typeLog type) = [] := by
  unfold typeLog getCufftType
  split_ifs <;> simp [Logger.log, World.emit, startWorld, Event.nativeCall]

theorem exception_typeLog (type : Int) :
    List.filterMap Event.exception (typeLog type) = [] := by
  unfold typeLog getCufftType
  split_ifs <;> simp [Logger.log, World.emit, startWorld, Event.exception]

/-! ## A null argument -/

theorem allNonNull_of_mem (c : Call) (parameter : String) (h : (parameter, true) ∈ c.nullChecks) :
    c.allNonNull = false := by
  by_contra hc
  simp only [Call.allNonNull, Bool.not_eq_false, List.all_eq_true] at hc
  simpa using hc _ h

theorem run_null (env : Env σ) (c : Call) (w : World σ) (h : c.allNonNull = false) :
    ∃ message, c.run env w = (some env.JCUFFT_INTERNAL_ERROR,
      ThrowByName "java/lang/NullPointerException" message w) := by
  cases c <;> simp [Call.allNonNull, Call.nullChecks] at h <;> simp only [Call.run] <;>
    refine Exists.imp (fun _ => Eq.symm) ?_ <;> simp -zeta <;>
    repeat (first | exact ⟨_, rfl⟩ | (split <;> simp at h))

/-- C1: whenever an argument that a bridge operation null-checks is null, the
operation, whatever its other arguments, returns `JCUFFT_INTERNAL_ERROR` and
raises exactly one exception, of class `java/lang/NullPointerException`. -/
theorem null_argument_raises_NullPointerException (env : Env σ) (c : Call) (w : World σ)
    (parameter : String) (h : (parameter, true) ∈ c.nullChecks) :
    (c.run env w).1 = some env.JCUFFT_INTERNAL_ERROR ∧
    ∃ message, exceptions (newEvents env c w) =
      [("java/lang/NullPointerException", message)] := by
  obtain ⟨message, hrun⟩ := run_null env c w (allNonNull_of_mem c parameter h)
  refine ⟨by rw [hrun], message, ?_⟩
  simp [newEvents, hrun, ThrowByName, World.emit, exceptions, Event.exception]

/-- C1 at `cufftExecC2CNative` with a null input buffer `cIdata`. -/
theorem null_argument_raises_NullPointerException_witness :
    (("cIdata", true) ∈ (Call.cufftExecC2CNative (some 0) none (some 1) (-1)).nullChecks) ∧
    ((Call.cufftExecC2CNative (some 0) none (some 1) (-1)).run stubEnv startWorld).1
      = some stubEnv.JCUFFT_INTERNAL_ERROR ∧
    ∃ message, exceptions (newEvents stubEnv (Call.cufftExecC2CNative (some 0) none (some 1) (-1))
      startWorld) = [("java/lang/NullPointerException", message)] :=
  ⟨by simp [Call.nullChecks],
    null_argument_raises_NullPointerException stubEnv _ startWorld "cIdata"
      (by simp [Call.nullChecks])⟩

/-- C2: whenever a null-checked argument is null, the operation calls no CUFFT
routine, accesses no handle field and no array, and leaves every handle field,
every array and the library state as they were: all it adds is the one
`NullPointerException` (next to returning the sentinel). -/
theorem null_argument_short_circuits (env : Env σ) (c : Call) (w : World σ)
    (parameter : String) (h : (parameter, true) ∈ c.nullChecks) :
    nativeCalls (newEvents env c w) = [] ∧
    (∀ e ∈ newEvents env c w, e.isFieldAccess = false ∧ e.isArrayAccess = false) ∧
    (c.run env w).2.plan = w.plan ∧
    (c.run env w).2.intArrays = w.intArrays ∧
    (c.run env w).2.longArrays = w.longArrays ∧
    (c.run env w).2.lib = w.lib ∧
    (∃ message, newEvents env c w =
      [Event.throwByName "java/lang/NullPointerException" message]) ∧
    (c.run env w).1 = some env.JCUFFT_INTERNAL_ERROR := by
  obtain ⟨message, hrun⟩ := run_null env c w (allNonNull_of_mem c parameter h)
  have hev : newEvents env c w = [Event.throwByName "java/lang/NullPointerException" message] := by
    simp [newEvents, hrun, ThrowByName, World.emit]
  refine ⟨?_, ?_, ?_, ?_, ?_, ?_, ⟨message, hev⟩, ?_⟩
  · simp [hev, nativeCalls, Event.nativeCall]
  · simp [hev, Event.isFieldAccess, Event.isArrayAccess]
  all_goals simp [hrun, ThrowByName, World.emit]

/-- C2 at `cufftGetSizeMany64Native` with a null `workSize`. -/
theorem null_argument_short_circuits_witness :
    (("workSize", true) ∈ (Call.cufftGetSizeMany64Native (some 0) 1 (some 0) (some 1) 1 1 (some 2)
      1 1 0x29 1 none).nullChecks) ∧
    nativeCalls (newEvents stubEnv (Call.cufftGetSizeMany64Native (some 0) 1 (some 0) (some 1) 1 1
      (some 2) 1 1 0x29 1 none) startWorld) = [] :=
  ⟨by simp [Call.nullChecks],
    (null_argument_short_circuits stubEnv _ startWorld "workSize" (by simp [Call.nullChecks])).1⟩


/-! ## The returned result code -/

/-- C3 (as stated) fails: `cufftGetPropertyNative` with a non-null `value` array
without an element 0 calls `cufftGetProperty`, which reports result 0, yet returns
`JCUFFT_INTERNAL_ERROR` (255 in this environment); and `setLogLevel` calls no CUFFT
routine and returns nothing. -/
theorem getProperty_store_failure_hides_native_result :
    (Call.cufftGetPropertyNative 0 (some 0)).allNonNull = true ∧
    nativeCalls (newEvents stubEnv (Call.cufftGetPropertyNative 0 (some 0)) startWorld)
      = [NativeCall.cufftGetProperty 0] ∧
    (stubEnv.cufft startWorld.lib (NativeCall.cufftGetProperty 0)).1.result = 0 ∧
    ((Call.cufftGetPropertyNative 0 (some 0)).run stubEnv startWorld).1 = some 255 ∧
    (Call.setLogLevel 0).allNonNull = true ∧
    nativeCalls (newEvents stubEnv (Call.setLogLevel 0) startWorld) = [] ∧
    ((Call.setLogLevel 0).run stubEnv startWorld).1 = none := by
  refine ⟨rfl, ?_, rfl, ?_, rfl, ?_, rfl⟩ <;>
    simp [newEvents, Call.run, Logger.log, Logger.setLogLevel, World.emit, callNative,
      set_jintArray_eq, nativeCalls, Event.nativeCall, startWorld, stubEnv]

/-- C3 (amended): every bridge operation other than `setCompatibilityMode` and
`setLogLevel`, called with all its null-checked arguments non-null, calls exactly
one CUFFT routine and returns that routine's result code, whatever the code and
whatever the out-array; except that `cufftGetPropertyNative` returns
`JCUFFT_INTERNAL_ERROR` when its out-array has no element 0. -/
theorem result_is_native_result (env : Env σ) (c : Call) (w : World σ)
    (h : c.allNonNull = true) (hlog : ∀ l, c ≠ Call.setLogLevel l)
    (hcompat : ∀ p m, c ≠ Call.cufftSetCompatibilityModeNative p m) :
    ∃ call, nativeCalls (newEvents env c w) = [call] ∧
      (c.run env w).1 = if c.propertyStoreFails w then some env.JCUFFT_INTERNAL_ERROR
        else some (env.cufft w.lib call).1.result := by
  cases c <;> simp [Call.allNonNull, Call.nullChecks] at h hlog hcompat <;>
    simp only [newEvents, Call.run, Call.propertyStoreFails] <;> simp -zeta <;>
    (repeat' split) <;> simp at h <;>
    simp_all [Logger.log, Logger.setLogLevel, ThrowByName, World.emit, GetIntField, SetIntField,
      getArrayContents_jintArray, getArrayContents_jlongArray, set_jintArray_eq, set_jlongArray_eq,
      getPointer, getNativePointerValue, callNative, getCufftType_eq, nativeCalls,
      Event.nativeCall, nativeCall_typeLog]

/-- C3 (amended) at `cufftGetVersionNative` with an out-array without element 0:
the result of `cufftGetVersion` is returned all the same. -/
theorem result_is_native_result_witness :
    (Call.cufftGetVersionNative (some 0)).allNonNull = true ∧
    ∃ call, nativeCalls (newEvents stubEnv (Call.cufftGetVersionNative (some 0)) startWorld)
        = [call] ∧
      ((Call.cufftGetVersionNative (some 0)).run stubEnv startWorld).1
        = if (Call.cufftGetVersionNative (some 0)).propertyStoreFails startWorld
          then some stubEnv.JCUFFT_INTERNAL_ERROR
          else some (stubEnv.cufft startWorld.lib call).1.result :=
  ⟨rfl, result_is_native_result stubEnv _ startWorld rfl (by simp) (by simp)⟩

/-! ## The unsupported operation -/

/-- C8: `cufftSetCompatibilityModeNative`, for every plan argument and every mode,
returns `JCUFFT_INTERNAL_ERROR`, and all it does is raise one
`java/lang/UnsupportedOperationException`: it calls no CUFFT routine and neither
reads nor writes the `plan` field of any handle. -/
theorem setCompatibilityMode_always_unsupported (env : Env σ) (plan : Option Nat) (mode : Int)
    (w : World σ) :
    ((Call.cufftSetCompatibilityModeNative plan mode).run env w).1
      = some env.JCUFFT_INTERNAL_ERROR ∧
    newEvents env (Call.cufftSetCompatibilityModeNative plan mode) w
      = [Event.throwByName "java/lang/UnsupportedOperationException"
          "Function cufftSetCompatibilityMode was removed in CUDA version 9.1."] ∧
    exceptions (newEvents env (Call.cufftSetCompatibilityModeNative plan mode) w)
      = [("java/lang/UnsupportedOperationException",
          "Function cufftSetCompatibilityMode was removed in CUDA version 9.1.")] ∧
    nativeCalls (newEvents env (Call.cufftSetCompatibilityModeNative plan mode) w) = [] ∧
    (∀ e ∈ newEvents env (Call.cufftSetCompatibilityModeNative plan mode) w,
      e.isFieldAccess = false) ∧
    ((Call.cufftSetCompatibilityModeNative plan mode).run env w).2.plan = w.plan ∧
    ((Call.cufftSetCompatibilityModeNative plan mode).run env w).2.lib = w.lib := by
  simp [newEvents, Call.run, ThrowByName, World.emit, exceptions, nativeCalls, Event.exception,
    Event.nativeCall, Event.isFieldAccess]

/-! ## The transform type -/

/-- C6: `getCufftType` maps the six tags 0x2A, 0x2C, 0x29, 0x6A, 0x6C, 0x69 to
R2C, C2R, C2C, D2Z, Z2D, Z2Z, leaving the world as it is (so nothing is logged);
on these six tags it is injective. -/
theorem getCufftType_recognised (w : World σ) :
    getCufftType 0x2A w = (cufftType.CUFFT_R2C, w) ∧
    getCufftType 0x2C w = (cufftType.CUFFT_C2R, w) ∧
    getCufftType 0x29 w = (cufftType.CUFFT_C2C, w) ∧
    getCufftType 0x6A w = (cufftType.CUFFT_D2Z, w) ∧
    getCufftType 0x6C w = (cufftType.CUFFT_Z2D, w) ∧
    getCufftType 0x69 w = (cufftType.CUFFT_Z2Z, w) ∧
    (∀ s ∈ [0x2A, 0x2C, 0x29, 0x6A, 0x6C, 0x69],
      logged LogLevel.LOG_ERROR ((getCufftType s w).2.events.drop w.events.length) = []) ∧
    (∀ s ∈ [0x2A, 0x2C, 0x29, 0x6A, 0x6C, 0x69], ∀ t ∈ [0x2A, 0x2C, 0x29, 0x6A, 0x6C, 0x69],
      (getCufftType s w).1 = (getCufftType t w).1 → s = t) := by
  refine ⟨by simp [getCufftType], by simp [getCufftType], by simp [getCufftType],
    by simp [getCufftType], by simp [getCufftType], by simp [getCufftType], ?_, ?_⟩
  · simp [getCufftType, logged]
  · simp [getCufftType]

theorem cufftTypeOf_unrecognised (t : Int) (ht : t ∉ [0x29, 0x2A, 0x2C, 0x69, 0x6A, 0x6C]) :
    cufftTypeOf t = cufftType.CUFFT_C2C ∧
    typeLog t = [Event.log LogLevel.LOG_ERROR "Invalid cufftType specified: %d\n" [t]] := by
  simp at ht
  simp [cufftTypeOf, typeLog, getCufftType, ht, Logger.log, World.emit, startWorld]

theorem cufftTypeOf_C2C : cufftTypeOf 0x29 = cufftType.CUFFT_C2C ∧ typeLog 0x29 = [] := by
  simp [cufftTypeOf, typeLog, getCufftType, startWorld]

theorem run_typed_nonnull (env : Env σ) (c : Call) (w : World σ) (t : Int)
    (hc : c.typeTag = some t) (h : c.allNonNull = true) :
    ∃ call, nativeCalls (newEvents env c w) = [call] ∧
      call.type = some (cufftTypeOf t) ∧
      logged LogLevel.LOG_ERROR (newEvents env c w) = logged LogLevel.LOG_ERROR (typeLog t) ∧
      (c.run env w).1 = some (env.cufft w.lib call).1.result := by
  cases c <;> simp [Call.typeTag] at hc <;> subst hc <;>
    simp [Call.allNonNull, Call.nullChecks] at h <;>
    simp only [newEvents, Call.run] <;>
    simp -zeta <;> (repeat' split) <;> simp at h <;>
    simp_all [Logger.log, ThrowByName, World.emit, GetIntField, SetIntField,
      getArrayContents_jintArray, getArrayContents_jlongArray, set_jlongArray_eq,
      callNative, getCufftType_eq, nativeCalls, logged, nativeCall_typeLog,
      Event.nativeCall, Event.logged, NativeCall.type]

theorem run_withTypeTag (env : Env σ) (c : Call) (w : World σ) (t s : Int)
    (hc : c.typeTag = some t) (hts : cufftTypeOf t = cufftTypeOf s) :
    (c.run env w).1 = ((c.withTypeTag s).run env w).1 ∧
    nativeCalls (newEvents env c w) = nativeCalls (newEvents env (c.withTypeTag s) w) ∧
    exceptions (newEvents env c w) = exceptions (newEvents env (c.withTypeTag s) w) ∧
    (c.run env w).2.heap = ((c.withTypeTag s).run env w).2.heap ∧
    (c.run env w).2.lib = ((c.withTypeTag s).run env w).2.lib := by
  cases c <;> simp [Call.typeTag] at hc <;> subst hc <;>
    simp only [newEvents, Call.run, Call.withTypeTag] <;>
    simp -zeta <;> (repeat' split) <;>
    simp_all [Logger.log, ThrowByName, World.emit, GetIntField, SetIntField,
      getArrayContents_jintArray, getArrayContents_jlongArray, set_jlongArray_eq,
      callNative, getCufftType_eq, nativeCalls, exceptions, World.heap, nativeCall_typeLog,
      exception_typeLog, Event.nativeCall, Event.exception]

theorem newEvents_null (env : Env σ) (c : Call) (w : World σ) (h : c.allNonNull = false) :
    ∃ message, newEvents env c w =
      [Event.throwByName "java/lang/NullPointerException" message] := by
  obtain ⟨message, hrun⟩ := run_null env c w h
  exact ⟨message, by simp [newEvents, hrun, ThrowByName, World.emit]⟩

/-- C5: for every tag other than 0x29, 0x2A, 0x2C, 0x69, 0x6A and 0x6C,
`getCufftType` returns `CUFFT_C2C` and logs exactly one message, at error level.
Consequently, for every operation that takes a type tag (32-bit and 64-bit
descriptor paths alike) and such a tag: every CUFFT call it makes carries
`CUFFT_C2C`; the returned value, the CUFFT calls, the exceptions, the heap and the
library state are those of the same invocation with tag 0x29; and when the
null-checked arguments are non-null it makes exactly one CUFFT call, with
`CUFFT_C2C`, logs exactly one error-level message and returns the result code of
that call. -/
theorem unrecognised_type_falls_back_to_C2C (t : Int)
    (ht : t ∉ [0x29, 0x2A, 0x2C, 0x69, 0x6A, 0x6C]) :
    (∀ w : World σ, getCufftType t w = (cufftType.CUFFT_C2C,
        Logger.log LogLevel.LOG_ERROR "Invalid cufftType specified: %d\n" [t] w) ∧
      logged LogLevel.LOG_ERROR ((getCufftType t w).2.events.drop w.events.length)
        = [("Invalid cufftType specified: %d\n", [t])]) ∧
    (∀ (env : Env σ) (c : Call) (w : World σ), c.typeTag = some t →
      (∀ call ∈ nativeCalls (newEvents env c w), call.type = some cufftType.CUFFT_C2C) ∧
      (c.run env w).1 = ((c.withTypeTag 0x29).run env w).1 ∧
      nativeCalls (newEvents env c w) = nativeCalls (newEvents env (c.withTypeTag 0x29) w) ∧
      exceptions (newEvents env c w) = exceptions (newEvents env (c.withTypeTag 0x29) w) ∧
      (c.run env w).2.heap = ((c.withTypeTag 0x29).run env w).2.heap ∧
      (c.run env w).2.lib = ((c.withTypeTag 0x29).run env w).2.lib ∧
      (c.allNonNull = true →
        ∃ call, nativeCalls (newEvents env c w) = [call] ∧
          call.type = some cufftType.CUFFT_C2C ∧
          logged LogLevel.LOG_ERROR (newEvents env c w)
            = [("Invalid cufftType specified: %d\n", [t])] ∧
          (c.run env w).1 = some (env.cufft w.lib call).1.result)) := by
  obtain ⟨h1, h2⟩ := cufftTypeOf_unrecognised t ht
  obtain ⟨h3, _⟩ := cufftTypeOf_C2C
  constructor
  · intro w
    simp [getCufftType_eq, h1, h2, Logger.log, World.emit, logged, Event.logged]
  · intro env c w hc
    have hnn : c.allNonNull = true →
        ∃ call, nativeCalls (newEvents env c w) = [call] ∧
          call.type = some cufftType.CUFFT_C2C ∧
          logged LogLevel.LOG_ERROR (newEvents env c w)
            = [("Invalid cufftType specified: %d\n", [t])] ∧
          (c.run env w).1 = some (env.cufft w.lib call).1.result := by
      intro h
      obtain ⟨call, e1, e2, e3, e4⟩ := run_typed_nonnull env c w t hc h
      refine ⟨call, e1, by rw [e2, h1], ?_, e4⟩
      rw [e3, h2]
      simp [logged, Event.logged]
    obtain ⟨r1, r2, r3, r4, r5⟩ := run_withTypeTag env c w t 0x29 hc (h1.trans h3.symm)
    refine ⟨?_, r1, r2, r3, r4, r5, hnn⟩
    intro call hcall
    cases hall : c.allNonNull
    · obtain ⟨message, hev⟩ := newEvents_null env c w hall
      simp [hev, nativeCalls, Event.nativeCall] at hcall
    · obtain ⟨call2, e1, e2, _⟩ := hnn hall
      rw [e1] at hcall
      simp at hcall
      rw [hcall, e2]

/-- C5 at tag 5 for `cufftPlan1dNative` on a handle with `plan = 0`. -/
theorem unrecognised_type_falls_back_to_C2C_witness :
    ((5 : Int) ∉ [(0x29 : Int), 0x2A, 0x2C, 0x69, 0x6A, 0x6C]) ∧
    (Call.cufftPlan1dNative (some 0) 1024 5 1).typeTag = some 5 ∧
    (Call.cufftPlan1dNative (some 0) 1024 5 1).allNonNull = true ∧
    nativeCalls (newEvents stubEnv (Call.cufftPlan1dNative (some 0) 1024 5 1) startWorld)
      = [NativeCall.cufftPlan1d 0 1024 cufftType.CUFFT_C2C 1] ∧
    ((Call.cufftPlan1dNative (some 0) 1024 5 1).run stubEnv startWorld).1
      = ((Call.cufftPlan1dNative (some 0) 1024 0x29 1).run stubEnv startWorld).1 := by
  have ht : (5 : Int) ∉ [(0x29 : Int), 0x2A, 0x2C, 0x69, 0x6A, 0x6C] := by decide
  have key := (unrecognised_type_falls_back_to_C2C 5 ht).2 stubEnv
    (Call.cufftPlan1dNative (some 0) 1024 5 1) startWorld rfl
  refine ⟨ht, rfl, rfl, ?_, key.2.1⟩
  simp [newEvents, Call.run, Logger.log, World.emit, GetIntField, SetIntField, callNative,
    getCufftType, nativeCalls, Event.nativeCall, startWorld, stubEnv]

/-! ## Plan construction -/

/-- C4 (as stated) fails: `cufftPlanManyNative` with a non-null handle and a null
`n` calls no CUFFT routine at all; it returns `JCUFFT_INTERNAL_ERROR` and the
`plan` field keeps its value 0, although the stub would have left 7. -/
theorem planMany_null_n_makes_no_native_call :
    nativeCalls (newEvents stubEnv
      (Call.cufftPlanManyNative (some 0) 1 none none 1 1 none 1 1 0x29 1) startWorld) = [] ∧
    ((Call.cufftPlanManyNative (some 0) 1 none none 1 1 none 1 1 0x29 1).run
      stubEnv startWorld).1 = some 255 ∧
    ((Call.cufftPlanManyNative (some 0) 1 none none 1 1 none 1 1 0x29 1).run
      stubEnv startWorld).2.plan 0 = 0 ∧
    (stubEnv.cufft startWorld.lib
      (NativeCall.cufftPlanMany 0 1 none none 1 1 none 1 1 cufftType.CUFFT_C2C 1)).1.handle = 7 := by
  simp [newEvents, Call.run, ThrowByName, World.emit, nativeCalls, Event.nativeCall, startWorld,
    stubEnv]

/-- C4 (amended): for `cufftPlan1dNative`, `cufftPlan2dNative`, `cufftPlan3dNative`
and `cufftCreateNative` with a non-null handle, and for `cufftPlanManyNative` with
a non-null handle and a non-null `n`: the one CUFFT call receives the current value
of the handle's `plan` field as the content of its handle out-parameter, after the
call the field holds what the routine left there, and the routine's result code is
returned, whatever the code. In the scenario `handle.plan = 0`, `nx = 1024`,
`type = 0x29`, `batch = 1` with the stub (success, handle 7) the call returns 0 and
`handle.plan` is 7. -/
theorem plan_construction_writes_back_handle (env : Env σ) (w : World σ) (handle : Nat) :
    (∀ nx type batch : Int,
      let call := NativeCall.cufftPlan1d (w.plan handle) nx (getCufftType type w).1 batch
      let out := (Call.cufftPlan1dNative (some handle) nx type batch).run env w
      nativeCalls (newEvents env (Call.cufftPlan1dNative (some handle) nx type batch) w) = [call] ∧
      out.2.plan handle = (env.cufft w.lib call).1.handle ∧
      out.1 = some (env.cufft w.lib call).1.result) ∧
    (∀ nx ny type : Int,
      let call := NativeCall.cufftPlan2d (w.plan handle) nx ny (getCufftType type w).1
      let out := (Call.cufftPlan2dNative (some handle) nx ny type).run env w
      nativeCalls (newEvents env (Call.cufftPlan2dNative (some handle) nx ny type) w) = [call] ∧
      out.2.plan handle = (env.cufft w.lib call).1.handle ∧
      out.1 = some (env.cufft w.lib call).1.result) ∧
    (∀ nx ny nz type : Int,
      let call := NativeCall.cufftPlan3d (w.plan handle) nx ny nz (getCufftType type w).1
      let out := (Call.cufftPlan3dNative (some handle) nx ny nz type).run env w
      nativeCalls (newEvents env (Call.cufftPlan3dNative (some handle) nx ny nz type) w)
        = [call] ∧
      out.2.plan handle = (env.cufft w.lib call).1.handle ∧
      out.1 = some (env.cufft w.lib call).1.result) ∧
    (∀ (rank : Int) (n : Nat) (inembed : Option Nat) (istride idist : Int) (onembed : Option Nat)
        (ostride odist type batch : Int),
      let call := NativeCall.cufftPlanMany (w.plan handle) rank (some (w.intArrays n))
        (inembed.map w.intArrays) istride idist (onembed.map w.intArrays) ostride odist
        (getCufftType type w).1 batch
      let c := Call.cufftPlanManyNative (some handle) rank (some n) inembed istride idist onembed
        ostride odist type batch
      nativeCalls (newEvents env c w) = [call] ∧
      (c.run env w).2.plan handle = (env.cufft w.lib call).1.handle ∧
      (c.run env w).1 = some (env.cufft w.lib call).1.result) ∧
    (let call := NativeCall.cufftCreate (w.plan handle)
      let out := (Call.cufftCreateNative (some handle)).run env w
      nativeCalls (newEvents env (Call.cufftCreateNative (some handle)) w) = [call] ∧
      out.2.plan handle = (env.cufft w.lib call).1.handle ∧
      out.1 = some (env.cufft w.lib call).1.result) ∧
    (startWorld.plan 0 = 0 ∧
      (stubEnv.cufft startWorld.lib
        (NativeCall.cufftPlan1d 0 1024 cufftType.CUFFT_C2C 1)).1 =
          { result := 0, handle := 7, workSize := 4096, value := 11000 } ∧
      ((Call.cufftPlan1dNative (some 0) 1024 0x29 1).run stubEnv startWorld).1 = some 0 ∧
      ((Call.cufftPlan1dNative (some 0) 1024 0x29 1).run stubEnv startWorld).2.plan 0 = 7) := by
  refine ⟨?_, ?_, ?_, ?_, ?_, ?_⟩
  · intro nx type batch
    simp [newEvents, Call.run, Logger.log, World.emit, GetIntField, SetIntField, callNative,
      getCufftType_eq, nativeCalls, Event.nativeCall, nativeCall_typeLog]
  · intro nx ny type
    simp [newEvents, Call.run, Logger.log, World.emit, GetIntField, SetIntField, callNative,
      getCufftType_eq, nativeCalls, Event.nativeCall, nativeCall_typeLog]
  · intro nx ny nz type
    simp [newEvents, Call.run, Logger.log, World.emit, GetIntField, SetIntField, callNative,
      getCufftType_eq, nativeCalls, Event.nativeCall, nativeCall_typeLog]
  · intro rank n inembed istride idist onembed ostride odist type batch
    simp [newEvents, Call.run, Logger.log, World.emit, GetIntField, SetIntField, callNative,
      getArrayContents_jintArray, getCufftType_eq, nativeCalls, Event.nativeCall,
      nativeCall_typeLog]
  · simp [newEvents, Call.run, Logger.log, World.emit, GetIntField, SetIntField, callNative,
      nativeCalls, Event.nativeCall]
  · simp [Call.run, Logger.log, World.emit, GetIntField, SetIntField, callNative,
      getCufftType, startWorld, stubEnv]

/-! ## Out-parameter arrays -/

theorem jlong_of_size_t_small (c : Nat) (h : c < 2 ^ 63) : jlong_of_size_t c = c := by
  have h2 : c % 2 ^ 64 = c := Nat.mod_eq_of_lt (by omega)
  unfold jlong_of_size_t
  rw [h2, if_pos h]

theorem set_zero_eq_cons {α : Type} (l : List α) (v : α) (h : 0 < l.length) :
    l.set 0 v = v :: l.tail := by
  cases l with
  | nil => simp at h
  | cons a t => rfl

/-- C7 (as stated) fails: with `cufftGetSize` reporting the byte count `2 ^ 63`,
`cufftGetSizeNative` on a one-element `workSize` array leaves `-(2 ^ 63)` in
element 0, which is not the reported count. -/
theorem getSize_stores_reinterpreted_count :
    (Call.cufftGetSizeNative (some 0) (some 0)).allNonNull = true ∧
    (startWorld.longArrays 0).length = 1 ∧
    (hugeSizeEnv.cufft startWorld.lib (NativeCall.cufftGetSize 0)).1.workSize = 2 ^ 63 ∧
    ((Call.cufftGetSizeNative (some 0) (some 0)).run hugeSizeEnv startWorld).2.longArrays 0
      = [-(2 ^ 63)] ∧
    (-(2 ^ 63) : Int) ≠ ((2 ^ 63 : Nat) : Int) := by
  refine ⟨rfl, rfl, rfl, ?_, by decide⟩
  simp [Call.run, Logger.log, World.emit, GetIntField, callNative, set_jlongArray_eq, startWorld,
    hugeSizeEnv, jlong_of_size_t]

/-- C7 (amended): for every operation with an out-parameter array, called with all
null-checked arguments non-null and an out-array of length at least 1, and for
every result code of the one CUFFT call: after the call element 0 of the array is
the value the routine left in its out-parameter, converted to the element type,
and the other elements are unchanged. For `version` and `value` (`int` to `jint`)
that is the native value itself; for `workSize` it is the `size_t` count read as a
signed 64-bit number, which is the count itself whenever the count is below
`2 ^ 63`. -/
theorem out_array_receives_native_value (env : Env σ) (c : Call) (w : World σ)
    (h : c.allNonNull = true) :
    (∀ a, c.outArray = some (ArrayRef.jlongArray a) → 0 < (w.longArrays a).length →
      ∃ call, nativeCalls (newEvents env c w) = [call] ∧
        (c.run env w).2.longArrays a
          = jlong_of_size_t (env.cufft w.lib call).1.workSize :: (w.longArrays a).tail ∧
        ((env.cufft w.lib call).1.workSize < 2 ^ 63 →
          (c.run env w).2.longArrays a
            = ((env.cufft w.lib call).1.workSize : Int) :: (w.longArrays a).tail)) ∧
    (∀ a, c.outArray = some (ArrayRef.jintArray a) → 0 < (w.intArrays a).length →
      ∃ call, nativeCalls (newEvents env c w) = [call] ∧
        (c.run env w).2.intArrays a = (env.cufft w.lib call).1.value :: (w.intArrays a).tail) := by
  constructor
  · intro a ha hlen
    have key : ∃ call, nativeCalls (newEvents env c w) = [call] ∧
        (c.run env w).2.longArrays a
          = (w.longArrays a).set 0 (jlong_of_size_t (env.cufft w.lib call).1.workSize) := by
      cases c <;> simp [Call.outArray] at ha <;>
        simp [Call.allNonNull, Call.nullChecks] at h <;>
        simp only [newEvents, Call.run] <;> simp -zeta <;> (repeat' split) <;> simp at h <;>
        simp_all [Logger.log, World.emit, GetIntField, SetIntField,
          getArrayContents_jintArray, getArrayContents_jlongArray, set_jlongArray_eq,
          callNative, getCufftType_eq, nativeCalls, Event.nativeCall, nativeCall_typeLog]
    obtain ⟨call, e1, e2⟩ := key
    refine ⟨call, e1, ?_, ?_⟩
    · rw [e2, set_zero_eq_cons _ _ hlen]
    · intro hsmall
      rw [e2, set_zero_eq_cons _ _ hlen, jlong_of_size_t_small _ hsmall]
  · intro a ha hlen
    have key : ∃ call, nativeCalls (newEvents env c w) = [call] ∧
        (c.run env w).2.intArrays a = (w.intArrays a).set 0 (env.cufft w.lib call).1.value := by
      cases c <;> simp [Call.outArray] at ha <;>
        simp [Call.allNonNull, Call.nullChecks] at h <;>
        simp only [newEvents, Call.run] <;> simp -zeta <;> (repeat' split) <;> simp at h <;>
        simp_all [Logger.log, World.emit, callNative, set_jintArray_eq, nativeCalls,
          Event.nativeCall]
    obtain ⟨call, e1, e2⟩ := key
    exact ⟨call, e1, by rw [e2, set_zero_eq_cons _ _ hlen]⟩

/-- C7 (amended) for `cufftMakePlan1dNative` with the one-element `workSize` array
`{1024}`: after the call the array is `{4096}`, the count the stub reported. -/
theorem out_array_receives_native_value_witness :
    (Call.cufftMakePlan1dNative (some 0) 1024 0x29 1 (some 0)).allNonNull = true ∧
    (Call.cufftMakePlan1dNative (some 0) 1024 0x29 1 (some 0)).outArray
      = some (ArrayRef.jlongArray 0) ∧
    0 < (startWorld.longArrays 0).length ∧
    ∃ call, nativeCalls (newEvents stubEnv
        (Call.cufftMakePlan1dNative (some 0) 1024 0x29 1 (some 0)) startWorld) = [call] ∧
      ((Call.cufftMakePlan1dNative (some 0) 1024 0x29 1 (some 0)).run stubEnv
        startWorld).2.longArrays 0
        = jlong_of_size_t (stubEnv.cufft startWorld.lib call).1.workSize
          :: (startWorld.longArrays 0).tail :=
  ⟨rfl, rfl, by decide,
    ((out_array_receives_native_value stubEnv
      (Call.cufftMakePlan1dNative (some 0) 1024 0x29 1 (some 0)) startWorld rfl).1 0 rfl
      (by decide)).imp
      (fun _ hcall => ⟨hcall.1, hcall.2.1⟩)⟩

/-! ## One CUFFT call per invocation -/

theorem run_events (env : Env σ) (c : Call) (w : World σ) :
    (c.run env w).2.events = w.events ++ newEvents env c w := by
  have key : ∀ (l : List Event), (∃ es, l = w.events ++ es) →
      l = w.events ++ l.drop w.events.length := by
    rintro l ⟨es, rfl⟩
    simp
  apply key
  cases c <;> simp only [Call.run] <;> simp -zeta <;> (repeat' split) <;>
    simp [Logger.log, Logger.setLogLevel, ThrowByName, World.emit, GetIntField, SetIntField,
      getArrayContents_jintArray, getArrayContents_jlongArray, set_jintArray_eq,
      set_jlongArray_eq, getPointer, getNativePointerValue, callNative, getCufftType_eq]
  split_ifs <;> simp

theorem native_call_name (env : Env σ) (c : Call) (w : World σ)
    (h : c.allNonNull = true) (hlog : ∀ l, c ≠ Call.setLogLevel l)
    (hcompat : ∀ p m, c ≠ Call.cufftSetCompatibilityModeNative p m) :
    ∃ call, nativeCalls (newEvents env c w) = [call] ∧
      call.name.toList = dropNative c.methodName.toList := by
  cases c <;> simp [Call.allNonNull, Call.nullChecks] at h hlog hcompat <;>
    simp only [newEvents, Call.run] <;> simp -zeta <;>
    (repeat' split) <;> simp at h <;>
    simp_all [Logger.log, World.emit, GetIntField, SetIntField,
      getArrayContents_jintArray, getArrayContents_jlongArray, set_jintArray_eq, set_jlongArray_eq,
      getPointer, getNativePointerValue, callNative, getCufftType_eq, nativeCalls,
      Event.nativeCall, nativeCall_typeLog] 
  all_goals first | rfl | (split_ifs <;> simp_all [Event.nativeCall] <;> rfl)

theorem runAll_events (env : Env σ) (cs : List Call) (w : World σ) :
    ∃ es, (runAll env cs w).events = w.events ++ es := by
  induction cs generalizing w with
  | nil => exact ⟨[], by simp [runAll]⟩
  | cons c cs ih =>
    obtain ⟨es, hes⟩ := ih (c.run env w).2
    exact ⟨newEvents env c w ++ es, by rw [runAll, hes, run_events, List.append_assoc]⟩

/-- C9: against a CUFFT library whose calls are recorded, every bridge invocation
with all null-checked arguments non-null (other than `setCompatibilityMode` and
`setLogLevel`) records exactly one CUFFT call, of the routine named like the
method without `Native`; hence a sequence of such invocations records exactly the
corresponding routines, one per invocation, in the order of the invocations. -/
theorem one_native_call_per_invocation (env : Env σ) :
    (∀ (c : Call) (w : World σ), c.allNonNull = true → (∀ l, c ≠ Call.setLogLevel l) →
      (∀ p m, c ≠ Call.cufftSetCompatibilityModeNative p m) →
      ∃ call, nativeCalls (newEvents env c w) = [call] ∧
        call.name.toList = dropNative c.methodName.toList) ∧
    (∀ (cs : List Call) (w : World σ),
      (∀ c ∈ cs, c.allNonNull = true ∧ (∀ l, c ≠ Call.setLogLevel l) ∧
        (∀ p m, c ≠ Call.cufftSetCompatibilityModeNative p m)) →
      (nativeCalls ((runAll env cs w).events.drop w.events.length)).map
          (fun call => call.name.toList)
        = cs.map (fun c => dropNative c.methodName.toList)) := by
  refine ⟨fun c w h hlog hcompat => native_call_name env c w h hlog hcompat, ?_⟩
  intro cs
  induction cs with
  | nil => intro w _; simp [runAll, nativeCalls]
  | cons c cs ih =>
    intro w hcs
    obtain ⟨hc1, hc2, hc3⟩ := hcs c (List.mem_cons_self c cs)
    obtain ⟨call, e1, e2⟩ := native_call_name env c w hc1 hc2 hc3
    obtain ⟨es, hes⟩ := runAll_events env cs (c.run env w).2
    have ih2 := ih (c.run env w).2 (fun d hd => hcs d (List.mem_cons_of_mem c hd))
    rw [hes, List.drop_left] at ih2
    have e3 : List.filterMap Event.nativeCall (newEvents env c w) = [call] := e1
    rw [runAll, hes, run_events, List.append_assoc, List.drop_left]
    simp only [nativeCalls, List.filterMap_append, List.map_append, List.map_cons, e3]
    simp only [nativeCalls] at ih2
    rw [ih2, e2]
    rfl

/-- C9 for the sequence plan1d, getSize, execC2C, destroy on one handle: the
recorded CUFFT calls are `cufftPlan1d`, `cufftGetSize`, `cufftExecC2C`,
`cufftDestroy`, in this order. -/
theorem one_native_call_per_invocation_witness :
    (∀ c ∈ [Call.cufftPlan1dNative (some 0) 1024 0x29 1, Call.cufftGetSizeNative (some 0) (some 0),
        Call.cufftExecC2CNative (some 0) (some 1) (some 2) (-1), Call.cufftDestroyNative (some 0)],
      c.allNonNull = true ∧ (∀ l, c ≠ Call.setLogLevel l) ∧
        (∀ p m, c ≠ Call.cufftSetCompatibilityModeNative p m)) ∧
    (nativeCalls ((runAll stubEnv [Call.cufftPlan1dNative (some 0) 1024 0x29 1,
        Call.cufftGetSizeNative (some 0) (some 0),
        Call.cufftExecC2CNative (some 0) (some 1) (some 2) (-1),
        Call.cufftDestroyNative (some 0)] startWorld).events.drop startWorld.events.length)).map
          (fun call => call.name.toList)
      = ["cufftPlan1d".toList, "cufftGetSize".toList, "cufftExecC2C".toList,
          "cufftDestroy".toList] := by
  have hcs : ∀ c ∈ [Call.cufftPlan1dNative (some 0) 1024 0x29 1,
      Call.cufftGetSizeNative (some 0) (some 0),
      Call.cufftExecC2CNative (some 0) (some 1) (some 2) (-1), Call.cufftDestroyNative (some 0)],
      c.allNonNull = true ∧ (∀ l, c ≠ Call.setLogLevel l) ∧
        (∀ p m, c ≠ Call.cufftSetCompatibilityModeNative p m) := by
    intro c hc
    simp only [List.mem_cons, List.mem_singleton, List.not_mem_nil, or_false] at hc
    rcases hc with rfl | rfl | rfl | rfl <;> exact ⟨rfl, by simp, by simp⟩
  exact ⟨hcs, (one_native_call_per_invocation stubEnv).2 _ startWorld hcs⟩

/-! ## The descriptor arrays of the many-family -/

/-- C10 (as stated) fails: in `cufftMakePlanManyNative64` the arrays `n` and
`workSize` are both `long[]` and may be the same object; then the routine still
receives the elements `{1024}` of `n`, but after the call the caller's `n` array
is `{4096}`, the work size the stub reported. -/
theorem makePlanMany64_overwrites_n_when_it_is_workSize :
    (Call.cufftMakePlanManyNative64 (some 0) 1 (some 0) (some 1) 1 1 (some 2) 1 1 0x29 1
      (some 0)).allNonNull = true ∧
    startWorld.longArrays 0 = [1024] ∧
    nativeCalls (newEvents stubEnv (Call.cufftMakePlanManyNative64 (some 0) 1 (some 0) (some 1)
      1 1 (some 2) 1 1 0x29 1 (some 0)) startWorld)
      = [NativeCall.cufftMakePlanMany64 0 1 (some [1024]) (some [1024]) 1 1 (some [1024]) 1 1
          cufftType.CUFFT_C2C 1] ∧
    ((Call.cufftMakePlanManyNative64 (some 0) 1 (some 0) (some 1) 1 1 (some 2) 1 1 0x29 1
      (some 0)).run stubEnv startWorld).2.longArrays 0 = [4096] := by
  refine ⟨rfl, rfl, ?_, ?_⟩ <;>
    simp [newEvents, Call.run, Logger.log, World.emit, GetIntField, SetIntField,
      getArrayContents_jlongArray, set_jlongArray_eq, callNative, getCufftType, nativeCalls,
      Event.nativeCall, startWorld, stubEnv, jlong_of_size_t]

/-- C10 (amended): for each many-family operation with non-null null-checked
arguments and non-null `n`, `inembed` and `onembed`: the one CUFFT call receives
the elements of the caller's three arrays, in order and in full length (`int`
elements in the 32-bit variants, `long` elements as they are in the 64-bit
variants), `rank`, `istride`, `idist`, `ostride`, `odist` and `batch` unchanged at
their positions, and `getCufftType(type)` as the type. After the call every
`int[]` array is unchanged; in the 32-bit variants so is every `long[]` array
other than `workSize`, and in the 64-bit variants every `long[]` array that is not
the same object as `workSize` is unchanged (so the caller's `n`, `inembed`,
`onembed` are unchanged unless one of them is `workSize` itself). -/
theorem many_family_passes_descriptor_arrays (env : Env σ) (w : World σ)
    (rank : Int) (n inembed : Nat) (istride idist : Int) (onembed : Nat)
    (ostride odist type batch : Int) :
    (∀ handle : Nat,
      let c := Call.cufftPlanManyNative (some handle) rank (some n) (some inembed) istride idist
        (some onembed) ostride odist type batch
      nativeCalls (newEvents env c w)
        = [NativeCall.cufftPlanMany (w.plan handle) rank (some (w.intArrays n)) (some (w.intArrays inembed))
          istride idist (some (w.intArrays onembed)) ostride odist (getCufftType type w).1 batch] ∧
      (c.run env w).2.intArrays = w.intArrays ∧
      (c.run env w).2.longArrays = w.longArrays) ∧
    (∀ plan workSize : Nat,
      let c := Call.cufftMakePlanManyNative (some plan) rank (some n) (some inembed) istride idist
        (some onembed) ostride odist type batch (some workSize)
      nativeCalls (newEvents env c w)
        = [NativeCall.cufftMakePlanMany (w.plan plan) rank (some (w.intArrays n)) (some (w.intArrays inembed))
          istride idist (some (w.intArrays onembed)) ostride odist (getCufftType type w).1 batch] ∧
      (c.run env w).2.intArrays = w.intArrays ∧
      (∀ a, a ≠ workSize → (c.run env w).2.longArrays a = w.longArrays a)) ∧
    (∀ plan workSize : Nat,
      let c := Call.cufftMakePlanManyNative64 (some plan) rank (some n) (some inembed) istride idist
        (some onembed) ostride odist type batch (some workSize)
      nativeCalls (newEvents env c w)
        = [NativeCall.cufftMakePlanMany64 (w.plan plan) rank (some (w.longArrays n)) (some (w.longArrays inembed))
          istride idist (some (w.longArrays onembed)) ostride odist (getCufftType type w).1 batch] ∧
      (c.run env w).2.intArrays = w.intArrays ∧
      (∀ a, a ≠ workSize → (c.run env w).2.longArrays a = w.longArrays a)) ∧
    (∀ workSize : Nat,
      let c := Call.cufftEstimateManyNative rank (some n) (some inembed) istride idist
        (some onembed) ostride odist type batch (some workSize)
      nativeCalls (newEvents env c w)
        = [NativeCall.cufftEstimateMany rank (some (w.intArrays n)) (some (w.intArrays inembed))
          istride idist (some (w.intArrays onembed)) ostride odist (getCufftType type w).1 batch] ∧
      (c.run env w).2.intArrays = w.intArrays ∧
      (∀ a, a ≠ workSize → (c.run env w).2.longArrays a = w.longArrays a)) ∧
    (∀ handle workSize : Nat,
      let c := Call.cufftGetSizeManyNative (some handle) rank (some n) (some inembed) istride idist
        (some onembed) ostride odist type batch (some workSize)
      nativeCalls (newEvents env c w)
        = [NativeCall.cufftGetSizeMany (w.plan handle) rank (some (w.intArrays n)) (some (w.intArrays inembed))
          istride idist (some (w.intArrays onembed)) ostride odist (getCufftType type w).1 batch] ∧
      (c.run env w).2.intArrays = w.intArrays ∧
      (∀ a, a ≠ workSize → (c.run env w).2.longArrays a = w.longArrays a)) ∧
    (∀ plan workSize : Nat,
      let c := Call.cufftGetSizeMany64Native (some plan) rank (some n) (some inembed) istride idist
        (some onembed) ostride odist type batch (some workSize)
      nativeCalls (newEvents env c w)
        = [NativeCall.cufftGetSizeMany64 (w.plan plan) rank (some (w.longArrays n)) (some (w.longArrays inembed))
          istride idist (some (w.longArrays onembed)) ostride odist (getCufftType type w).1 batch] ∧
      (c.run env w).2.intArrays = w.intArrays ∧
      (∀ a, a ≠ workSize → (c.run env w).2.longArrays a = w.longArrays a)) := by
  refine ⟨?_, ?_, ?_, ?_, ?_, ?_⟩ <;> intros <;>
    simp +contextual [newEvents, Call.run, Logger.log, World.emit, GetIntField, SetIntField,
      getArrayContents_jintArray, getArrayContents_jlongArray, set_jlongArray_eq, callNative,
      getCufftType_eq, nativeCalls, Event.nativeCall, nativeCall_typeLog]

/-- C10 (amended) for `cufftGetSizeMany64Native` with four different arrays:
`n` (array 0) differs from `workSize` (array 3) and is unchanged by the call. -/
theorem many_family_passes_descriptor_arrays_witness :
    ((0 : Nat) ≠ 3) ∧
    ((Call.cufftGetSizeMany64Native (some 0) 1 (some 0) (some 1) 1 1 (some 2) 1 1 0x29 1
      (some 3)).run stubEnv startWorld).2.longArrays 0 = startWorld.longArrays 0 :=
  ⟨by decide,
    ((many_family_passes_descriptor_arrays stubEnv startWorld 1 0 1 1 1 2 1 1 0x29 1).2.2.2.2.2
      0 3).2.2 0 (by decide)⟩

/-! ## Execution -/

/-- C11: each execution operation with non-null handle, input buffer and output
buffer does exactly this: it logs one trace message, reads the handle's `plan`
field, resolves the input buffer and then the output buffer to addresses, and
calls the CUFFT routine of the same name with the field's value, the input
address, the output address (in this order) and, for C2C and Z2Z, the caller's
direction flag; it returns the routine's result code. Nothing is raised for any
argument values, and every handle field and array is as before. -/
theorem exec_passes_plan_and_buffers (env : Env σ) (w : World σ) (handle idata odata : Nat)
    (direction : Int) :
    (let c := Call.cufftExecC2CNative (some handle) (some idata) (some odata) direction
      let call := NativeCall.cufftExecC2C (w.plan handle) (w.pointers idata) (w.pointers odata) direction
      newEvents env c w = [Event.log LogLevel.LOG_TRACE "Executing cufftExecC2C\n" [],
        Event.getIntField handle, Event.getPointer idata, Event.getPointer odata,
        Event.native call] ∧
      (c.run env w).1 = some (env.cufft w.lib call).1.result ∧
      (c.run env w).2.heap = w.heap) ∧
    (let c := Call.cufftExecR2CNative (some handle) (some idata) (some odata)
      let call := NativeCall.cufftExecR2C (w.plan handle) (w.pointers idata) (w.pointers odata)
      newEvents env c w = [Event.log LogLevel.LOG_TRACE "Executing cufftExecR2C\n" [],
        Event.getIntField handle, Event.getPointer idata, Event.getPointer odata,
        Event.native call] ∧
      (c.run env w).1 = some (env.cufft w.lib call).1.result ∧
      (c.run env w).2.heap = w.heap) ∧
    (let c := Call.cufftExecC2RNative (some handle) (some idata) (some odata)
      let call := NativeCall.cufftExecC2R (w.plan handle) (w.pointers idata) (w.pointers odata)
      newEvents env c w = [Event.log LogLevel.LOG_TRACE "Executing cufftExecC2R\n" [],
        Event.getIntField handle, Event.getPointer idata, Event.getPointer odata,
        Event.native call] ∧
      (c.run env w).1 = some (env.cufft w.lib call).1.result ∧
      (c.run env w).2.heap = w.heap) ∧
    (let c := Call.cufftExecZ2ZNative (some handle) (some idata) (some odata) direction
      let call := NativeCall.cufftExecZ2Z (w.plan handle) (w.pointers idata) (w.pointers odata) direction
      newEvents env c w = [Event.log LogLevel.LOG_TRACE "Executing cufftExecZ2Z\n" [],
        Event.getIntField handle, Event.getPointer idata, Event.getPointer odata,
        Event.native call] ∧
      (c.run env w).1 = some (env.cufft w.lib call).1.result ∧
      (c.run env w).2.heap = w.heap) ∧
    (let c := Call.cufftExecD2ZNative (some handle) (some idata) (some odata)
      let call := NativeCall.cufftExecD2Z (w.plan handle) (w.pointers idata) (w.pointers odata)
      newEvents env c w = [Event.log LogLevel.LOG_TRACE "Executing cufftExecD2Z\n" [],
        Event.getIntField handle, Event.getPointer idata, Event.getPointer odata,
        Event.native call] ∧
      (c.run env w).1 = some (env.cufft w.lib call).1.result ∧
      (c.run env w).2.heap = w.heap) ∧
    (let c := Call.cufftExecZ2DNative (some handle) (some idata) (some odata)
      let call := NativeCall.cufftExecZ2D (w.plan handle) (w.pointers idata) (w.pointers odata)
      newEvents env c w = [Event.log LogLevel.LOG_TRACE "Executing cufftExecZ2D\n" [],
        Event.getIntField handle, Event.getPointer idata, Event.getPointer odata,
        Event.native call] ∧
      (c.run env w).1 = some (env.cufft w.lib call).1.result ∧
      (c.run env w).2.heap = w.heap) := by
  refine ⟨?_, ?_, ?_, ?_, ?_, ?_⟩ <;>
    simp [newEvents, Call.run, Logger.log, World.emit, GetIntField, getPointer, callNative,
      World.heap]

/-! ## Loading the library -/

/-- C15: `JNI_OnLoad` returns `JNI_VERSION_1_4` if and only if all five steps
succeed (obtaining the environment, `initJNIUtils`, `initPointerUtils`, resolving
the class `jcuda/jcufft/cufftHandle`, resolving its int field `plan`); otherwise it
returns `JNI_ERR`. The steps are attempted in this order, every attempted step but
the last one succeeded, and when the result is `JNI_ERR` the last attempted step is
a failing one: nothing is attempted after the first failure. -/
theorem JNI_OnLoad_succeeds_iff_all_steps_succeed (jvm : LoadEnv) :
    ((JNI_OnLoad jvm).1 = JNI_VERSION_1_4 ↔ ∀ step ∈ loadSteps, jvm.succeeds step = true) ∧
    ((∃ step ∈ loadSteps, jvm.succeeds step = false) → (JNI_OnLoad jvm).1 = JNI_ERR) ∧
    ((JNI_OnLoad jvm).1 = JNI_VERSION_1_4 ∨ (JNI_OnLoad jvm).1 = JNI_ERR) ∧
    (∃ k, (JNI_OnLoad jvm).2.filter (fun step => step ∈ loadSteps) = loadSteps.take k) ∧
    (∀ step ∈ (JNI_OnLoad jvm).2.dropLast, jvm.succeeds step = true) ∧
    ((JNI_OnLoad jvm).1 = JNI_ERR →
      ∃ step, (JNI_OnLoad jvm).2.getLast? = some step ∧ jvm.succeeds step = false) := by
  unfold JNI_OnLoad
  split_ifs <;>
    simp_all [loadSteps, LoadEnv.succeeds, JNI_ERR, JNI_VERSION_1_4, List.filter]
  all_goals first
    | exact ⟨1, rfl⟩ | exact ⟨2, rfl⟩ | exact ⟨3, rfl⟩ | exact ⟨4, rfl⟩ | exact ⟨5, le_refl 5⟩

/-- C15 where `initPointerUtils` fails: the result is `JNI_ERR`, the last attempted
step is `initPointerUtils`, and the class and the field are not resolved. -/
theorem JNI_OnLoad_succeeds_iff_all_steps_succeed_witness :
    (∃ step ∈ loadSteps, pointerUtilsFail.succeeds step = false) ∧
    (JNI_OnLoad pointerUtilsFail).1 = JNI_ERR ∧
    (JNI_OnLoad pointerUtilsFail).2
      = [LoadStep.GetEnv, LoadStep.log LogLevel.LOG_TRACE "Initializing JCufft\n",
          LoadStep.initJNIUtils, LoadStep.initPointerUtils] :=
  ⟨⟨LoadStep.initPointerUtils, by simp [loadSteps], by simp [LoadEnv.succeeds, pointerUtilsFail]⟩,
    (JNI_OnLoad_succeeds_iff_all_steps_succeed pointerUtilsFail).2.1
      ⟨LoadStep.initPointerUtils, by simp [loadSteps],
        by simp [LoadEnv.succeeds, pointerUtilsFail]⟩,
    by simp [JNI_OnLoad, JNI_ERR, JNI_VERSION_1_4, pointerUtilsFail]⟩

/-! ## The handle field of the other operations -/

theorem run_usedHandle_nonnull (env : Env σ) (c : Call) (w : World σ) (handle : Nat)
    (hc : c.usedHandle = some (some handle)) (h : c.allNonNull = true) :
    ∃ call, nativeCalls (newEvents env c w) = [call] ∧ call.handle = some (w.plan handle) ∧
      (c.run env w).1 = some (env.cufft w.lib call).1.result ∧
      (c.run env w).2.plan = w.plan := by
  cases c <;> simp [Call.usedHandle] at hc <;> subst hc <;>
    simp [Call.allNonNull, Call.nullChecks] at h <;>
    simp only [newEvents, Call.run] <;> simp -zeta <;>
    (repeat' split) <;> (try simp at h) <;>
    simp_all [Logger.log, World.emit, GetIntField, SetIntField,
      getArrayContents_jintArray, getArrayContents_jlongArray, set_jlongArray_eq,
      getPointer, getNativePointerValue, callNative, getCufftType_eq, nativeCalls,
      Event.nativeCall, nativeCall_typeLog, NativeCall.handle]

theorem run_usedHandle (env : Env σ) (c : Call) (w : World σ) (handle : Nat)
    (hc : c.usedHandle = some (some handle)) :
    (∀ call ∈ nativeCalls (newEvents env c w), call.handle = some (w.plan handle)) ∧
    (c.run env w).2.plan = w.plan := by
  cases hall : c.allNonNull
  · obtain ⟨message, hrun⟩ := run_null env c w hall
    obtain ⟨message2, hev⟩ := newEvents_null env c w hall
    simp [hev, hrun, nativeCalls, Event.nativeCall, ThrowByName, World.emit]
  · obtain ⟨call, e1, e2, _, e4⟩ := run_usedHandle_nonnull env c w handle hc hall
    refine ⟨?_, e4⟩
    intro call2 hcall2
    rw [e1] at hcall2
    simp at hcall2
    rw [hcall2, e2]

/-! ## Exceptions -/

theorem exceptions_nonnull (env : Env σ) (c : Call) (w : World σ)
    (h : c.allNonNull = true) (hcompat : ∀ p m, c ≠ Call.cufftSetCompatibilityModeNative p m) :
    exceptions (newEvents env c w) =
      if c.outArrayEmpty w then
        [("java/lang/ArrayIndexOutOfBoundsException", "Array index out of bounds")]
      else [] := by
  cases c <;> simp [Call.allNonNull, Call.nullChecks] at h hcompat <;>
    simp only [newEvents, Call.run, Call.outArrayEmpty, Call.outArray] <;> simp -zeta <;>
    (repeat' split) <;> (try simp at h) <;>
    simp_all [Logger.log, Logger.setLogLevel, World.emit, GetIntField, SetIntField,
      getArrayContents_jintArray, getArrayContents_jlongArray, set_jlongArray_eq,
      set_jintArray_eq, getPointer, getNativePointerValue, callNative, getCufftType_eq,
      exceptions, Event.exception, exception_typeLog]

theorem npe_iff_null (env : Env σ) (c : Call) (w : World σ)
    (hcompat : ∀ p m, c ≠ Call.cufftSetCompatibilityModeNative p m) :
    (∃ message, ("java/lang/NullPointerException", message) ∈ exceptions (newEvents env c w)) ↔
      c.allNonNull = false := by
  constructor
  · rintro ⟨message, hmem⟩
    by_contra hcon
    rw [Bool.not_eq_false] at hcon
    rw [exceptions_nonnull env c w hcon hcompat] at hmem
    split_ifs at hmem
    · simp only [List.mem_singleton, Prod.mk.injEq] at hmem
      exact absurd hmem.1 (by decide)
    · simp at hmem
  · intro hnull
    obtain ⟨message, hev⟩ := newEvents_null env c w hnull
    exact ⟨message, by simp [hev, exceptions, Event.exception]⟩

theorem fieldWrite_typeLog (type : Int) :
    List.filterMap Event.fieldWrite (typeLog type) = [] := by
  unfold typeLog getCufftType
  split_ifs <;> simp [Logger.log, World.emit, startWorld, Event.fieldWrite]

/-- C16: every operation that takes a handle without being a plan-construction or
create call (destroy, setWorkArea, setAutoAllocation, setStream, getSize,
getSize1d/2d/3d/Many/Many64, the six exec operations), given a handle object: every
CUFFT call it makes receives the current value of the handle's `plan` field, and
every `plan` field is the same after the call as before, for every behaviour of the
library; with all null-checked arguments non-null it makes exactly one such call
and returns its result code. In particular after destroy the field still holds the
destroyed plan's value, and a following operation on the same handle raises no
`NullPointerException` and calls its routine with that same value. -/
theorem handle_users_keep_plan_field (env : Env σ) (w : World σ) (handle : Nat) :
    (∀ c : Call, c.usedHandle = some (some handle) →
      (∀ call ∈ nativeCalls (newEvents env c w), call.handle = some (w.plan handle)) ∧
      (c.run env w).2.plan = w.plan ∧
      (c.allNonNull = true →
        ∃ call, nativeCalls (newEvents env c w) = [call] ∧
          call.handle = some (w.plan handle) ∧
          (c.run env w).1 = some (env.cufft w.lib call).1.result)) ∧
    (nativeCalls (newEvents env (Call.cufftDestroyNative (some handle)) w)
        = [NativeCall.cufftDestroy (w.plan handle)] ∧
      ((Call.cufftDestroyNative (some handle)).run env w).2.plan handle = w.plan handle ∧
      ∀ d : Call, d.usedHandle = some (some handle) → d.allNonNull = true →
        ∃ call,
          nativeCalls (newEvents env d ((Call.cufftDestroyNative (some handle)).run env w).2)
            = [call] ∧
          call.handle = some (w.plan handle) ∧
          (d.run env ((Call.cufftDestroyNative (some handle)).run env w).2).1
            = some (env.cufft ((Call.cufftDestroyNative (some handle)).run env w).2.lib
                call).1.result ∧
          ∀ message, ("java/lang/NullPointerException", message) ∉
            exceptions (newEvents env d ((Call.cufftDestroyNative (some handle)).run env w).2)) := by
  have hd : ((Call.cufftDestroyNative (some handle)).run env w).2.plan = w.plan :=
    (run_usedHandle env (Call.cufftDestroyNative (some handle)) w handle rfl).2
  refine ⟨?_, ?_, ?_, ?_⟩
  · intro c hc
    obtain ⟨h1, h2⟩ := run_usedHandle env c w handle hc
    refine ⟨h1, h2, fun h => ?_⟩
    obtain ⟨call, e1, e2, e3, _⟩ := run_usedHandle_nonnull env c w handle hc h
    exact ⟨call, e1, e2, e3⟩
  · simp [newEvents, Call.run, Logger.log, World.emit, GetIntField, callNative, nativeCalls,
      Event.nativeCall]
  · rw [hd]
  · intro d hdu hdn
    obtain ⟨call, e1, e2, e3, _⟩ := run_usedHandle_nonnull env d
      ((Call.cufftDestroyNative (some handle)).run env w).2 handle hdu hdn
    rw [hd] at e2
    refine ⟨call, e1, e2, e3, ?_⟩
    intro message hmem
    have hcompat : ∀ p m, d ≠ Call.cufftSetCompatibilityModeNative p m := by
      intro p m hdc
      rw [hdc] at hdu
      simp [Call.usedHandle] at hdu
    rw [exceptions_nonnull env d _ hdn hcompat] at hmem
    split_ifs at hmem
    · simp only [List.mem_singleton, Prod.mk.injEq] at hmem
      exact absurd hmem.1 (by decide)
    · simp at hmem

/-- C16 for destroy followed by `cufftExecC2CNative` on the same handle, whose
`plan` field is 7. -/
theorem handle_users_keep_plan_field_witness :
    (Call.cufftExecC2CNative (some 0) (some 1) (some 2) (-1)).usedHandle = some (some 0) ∧
    (Call.cufftExecC2CNative (some 0) (some 1) (some 2) (-1)).allNonNull = true ∧
    planSevenWorld.plan 0 = 7 ∧
    ∃ call,
      nativeCalls (newEvents stubEnv (Call.cufftExecC2CNative (some 0) (some 1) (some 2) (-1))
        ((Call.cufftDestroyNative (some 0)).run stubEnv planSevenWorld).2) = [call] ∧
      call.handle = some (planSevenWorld.plan 0) :=
  ⟨rfl, rfl, rfl,
    ((handle_users_keep_plan_field stubEnv planSevenWorld 0).2.2.2
      (Call.cufftExecC2CNative (some 0) (some 1) (some 2) (-1)) rfl rfl).imp
      (fun _ hcall => ⟨hcall.1, hcall.2.1⟩)⟩

/-! ## The embedding descriptors -/

/-- C12: `cufftGetSizeMany64Native` and `cufftMakePlanManyNative64` with non-null
`plan`, `n` and `workSize`, whatever `inembed` and `onembed` are (null or not): the
CUFFT routine is called exactly once, receives a null pointer for each null
descriptor array (and the elements of each non-null one), and its result code is
returned; no `NullPointerException` is raised, and no exception at all when
`workSize` has an element 0. A `NullPointerException` is raised exactly when `plan`,
`n` or `workSize` is null. In the scenario `plan.plan = 7`, `rank = 1`,
`n = {1024}`, `inembed = null` the routine is called with plan 7, `{1024}` and a
null `inembed`. -/
theorem null_embeddings_pass_through_64 (env : Env σ) (w : World σ) (rank : Int)
    (inembed : Option Nat) (istride idist : Int) (onembed : Option Nat)
    (ostride odist type batch : Int) :
    (∀ plan n workSize : Nat,
      let c := Call.cufftGetSizeMany64Native (some plan) rank (some n) inembed istride idist onembed
        ostride odist type batch (some workSize)
      let call := NativeCall.cufftGetSizeMany64 (w.plan plan) rank (some (w.longArrays n))
        (inembed.map w.longArrays) istride idist (onembed.map w.longArrays) ostride odist
        (getCufftType type w).1 batch
      nativeCalls (newEvents env c w) = [call] ∧
      (c.run env w).1 = some (env.cufft w.lib call).1.result ∧
      (∀ message, ("java/lang/NullPointerException", message) ∉ exceptions (newEvents env c w)) ∧
      (w.longArrays workSize ≠ [] → exceptions (newEvents env c w) = [])) ∧
    (∀ plan n workSize : Nat,
      let c := Call.cufftMakePlanManyNative64 (some plan) rank (some n) inembed istride idist onembed
        ostride odist type batch (some workSize)
      let call := NativeCall.cufftMakePlanMany64 (w.plan plan) rank (some (w.longArrays n))
        (inembed.map w.longArrays) istride idist (onembed.map w.longArrays) ostride odist
        (getCufftType type w).1 batch
      nativeCalls (newEvents env c w) = [call] ∧
      (c.run env w).1 = some (env.cufft w.lib call).1.result ∧
      (∀ message, ("java/lang/NullPointerException", message) ∉ exceptions (newEvents env c w)) ∧
      (w.longArrays workSize ≠ [] → exceptions (newEvents env c w) = [])) ∧
    (∀ plan n workSize : Option Nat,
      (∃ message, ("java/lang/NullPointerException", message) ∈ exceptions (newEvents env
        (Call.cufftGetSizeMany64Native plan rank n inembed istride idist onembed ostride odist type batch
          workSize) w)) ↔
      (plan = none ∨ n = none ∨ workSize = none)) ∧
    (∀ plan n workSize : Option Nat,
      (∃ message, ("java/lang/NullPointerException", message) ∈ exceptions (newEvents env
        (Call.cufftMakePlanManyNative64 plan rank n inembed istride idist onembed ostride odist type batch
          workSize) w)) ↔
      (plan = none ∨ n = none ∨ workSize = none)) ∧
    (planSevenWorld.plan 0 = 7 ∧ planSevenWorld.longArrays 0 = [1024] ∧
      nativeCalls (newEvents stubEnv (Call.cufftGetSizeMany64Native (some 0) 1 (some 0) none 1 1
        (some 1) 1 1 0x29 1 (some 2)) planSevenWorld)
        = [NativeCall.cufftGetSizeMany64 7 1 (some [1024]) none 1 1 (some [1024]) 1 1
            cufftType.CUFFT_C2C 1] ∧
      ((Call.cufftGetSizeMany64Native (some 0) 1 (some 0) none 1 1 (some 1) 1 1 0x29 1
        (some 2)).run stubEnv planSevenWorld).1 = some 0 ∧
      exceptions (newEvents stubEnv (Call.cufftGetSizeMany64Native (some 0) 1 (some 0) none 1 1
        (some 1) 1 1 0x29 1 (some 2)) planSevenWorld) = []) := by
  refine ⟨?_, ?_, ?_, ?_, ?_⟩
  · intro plan n workSize
    simp only
    refine ⟨?_, ?_, ?_, ?_⟩
    · simp [newEvents, Call.run, Logger.log, World.emit, GetIntField, SetIntField,
        getArrayContents_jlongArray, set_jlongArray_eq, callNative, getCufftType_eq,
        nativeCalls, Event.nativeCall, nativeCall_typeLog]
    · simp [Call.run, Logger.log, World.emit, GetIntField, SetIntField,
        getArrayContents_jlongArray, set_jlongArray_eq, callNative, getCufftType_eq]
    · intro message hmem
      have := (npe_iff_null env _ w (by simp)).1 ⟨message, hmem⟩
      simp [Call.allNonNull, Call.nullChecks] at this
    · intro hne
      simp [exceptions_nonnull, Call.allNonNull, Call.nullChecks, Call.outArrayEmpty,
        Call.outArray, hne]
  · intro plan n workSize
    simp only
    refine ⟨?_, ?_, ?_, ?_⟩
    · simp [newEvents, Call.run, Logger.log, World.emit, GetIntField, SetIntField,
        getArrayContents_jlongArray, set_jlongArray_eq, callNative, getCufftType_eq,
        nativeCalls, Event.nativeCall, nativeCall_typeLog]
    · simp [Call.run, Logger.log, World.emit, GetIntField, SetIntField,
        getArrayContents_jlongArray, set_jlongArray_eq, callNative, getCufftType_eq]
    · intro message hmem
      have := (npe_iff_null env _ w (by simp)).1 ⟨message, hmem⟩
      simp [Call.allNonNull, Call.nullChecks] at this
    · intro hne
      simp [exceptions_nonnull, Call.allNonNull, Call.nullChecks, Call.outArrayEmpty,
        Call.outArray, hne]
  · intro plan n workSize
    rw [npe_iff_null env _ w (by simp)]
    cases plan <;> cases n <;> cases workSize <;> simp [Call.allNonNull, Call.nullChecks]
  · intro plan n workSize
    rw [npe_iff_null env _ w (by simp)]
    cases plan <;> cases n <;> cases workSize <;> simp [Call.allNonNull, Call.nullChecks]
  · refine ⟨rfl, rfl, ?_, ?_, ?_⟩ <;>
      simp [newEvents, Call.run, Logger.log, World.emit, GetIntField, SetIntField,
        getArrayContents_jlongArray, set_jlongArray_eq, callNative, getCufftType,
        nativeCalls, exceptions, Event.nativeCall, Event.exception, planSevenWorld, startWorld,
        stubEnv]

/-- C12 for `cufftMakePlanManyNative64` with both `inembed` and `onembed` null and
a one-element `workSize`: no exception at all. -/
theorem null_embeddings_pass_through_64_witness :
    (startWorld.longArrays 2 ≠ []) ∧
    exceptions (newEvents stubEnv (Call.cufftMakePlanManyNative64 (some 0) 1 (some 0) none 1 1
      none 1 1 0x29 1 (some 2)) startWorld) = [] :=
  ⟨by decide,
    ((null_embeddings_pass_through_64 stubEnv startWorld 1 none 1 1 none 1 1 0x29 1).2.1
      0 0 2).2.2.2 (by decide)⟩

/-- C18 (as stated) fails: there is no operation of the many-family for which a
null `inembed` or a null `onembed`, with the null-checked arguments non-null,
raises a `NullPointerException`. -/
theorem no_many_family_operation_checks_embeddings :
    ¬ ∃ (env : Env Unit) (c : Call) (w : World Unit) (inembed onembed : Option Nat),
      c.embeddings = some (inembed, onembed) ∧ (inembed = none ∨ onembed = none) ∧
      c.allNonNull = true ∧
      ∃ message, ("java/lang/NullPointerException", message) ∈ exceptions (newEvents env c w) := by
  rintro ⟨env, c, w, inembed, onembed, hc, _, hnn, hmem⟩
  have hcompat : ∀ p m, c ≠ Call.cufftSetCompatibilityModeNative p m := by
    intro p m hcm
    rw [hcm] at hc
    simp [Call.embeddings] at hc
  have := (npe_iff_null env c w hcompat).1 hmem
  rw [hnn] at this
  exact absurd this (by decide)

/-- C18 (amended): null-checking of the embedding descriptors is the same across
the six many-family operations: none of them checks `inembed` or `onembed`. With
the null-checked arguments non-null, each of them calls its CUFFT routine exactly
once, hands a null pointer for exactly the descriptors that are null, returns the
routine's result code and raises no `NullPointerException`. -/
theorem embeddings_are_never_null_checked (env : Env σ) (c : Call) (w : World σ)
    (inembed onembed : Option Nat) (hc : c.embeddings = some (inembed, onembed))
    (h : c.allNonNull = true) :
    ∃ call x y, nativeCalls (newEvents env c w) = [call] ∧
      call.embeddings = some (x, y) ∧
      (x = none ↔ inembed = none) ∧ (y = none ↔ onembed = none) ∧
      (c.run env w).1 = some (env.cufft w.lib call).1.result ∧
      ∀ message, ("java/lang/NullPointerException", message) ∉
        exceptions (newEvents env c w) := by
  have hcompat : ∀ p m, c ≠ Call.cufftSetCompatibilityModeNative p m := by
    intro p m hcm
    rw [hcm] at hc
    simp [Call.embeddings] at hc
  have hnpe : ∀ message, ("java/lang/NullPointerException", message) ∉
      exceptions (newEvents env c w) := by
    intro message hmem
    have := (npe_iff_null env c w hcompat).1 ⟨message, hmem⟩
    rw [h] at this
    exact absurd this (by decide)
  have key : ∃ call x y, nativeCalls (newEvents env c w) = [call] ∧
      call.embeddings = some (x, y) ∧
      (x = none ↔ inembed = none) ∧ (y = none ↔ onembed = none) ∧
      (c.run env w).1 = some (env.cufft w.lib call).1.result := by
    cases c <;> simp [Call.embeddings] at hc <;> obtain ⟨rfl, rfl⟩ := hc <;>
      simp [Call.allNonNull, Call.nullChecks] at h <;>
      simp only [newEvents, Call.run] <;> simp -zeta <;>
      (repeat' split) <;> (try simp at h) <;>
      simp_all [Logger.log, World.emit, GetIntField, SetIntField,
        getArrayContents_jintArray, getArrayContents_jlongArray, set_jlongArray_eq,
        callNative, getCufftType_eq, nativeCalls, Event.nativeCall, nativeCall_typeLog,
        NativeCall.embeddings] <;>
      exact ⟨_, _, ⟨rfl, rfl⟩, by simp, by simp⟩
  obtain ⟨call, x, y, e1, e2, e3, e4, e5⟩ := key
  exact ⟨call, x, y, e1, e2, e3, e4, e5, hnpe⟩

/-- C18 (amended) for `cufftPlanManyNative` with a null `inembed`. -/
theorem embeddings_are_never_null_checked_witness :
    (Call.cufftPlanManyNative (some 0) 1 (some 0) none 1 1 (some 1) 1 1 0x29 1).embeddings
      = some (none, some 1) ∧
    (Call.cufftPlanManyNative (some 0) 1 (some 0) none 1 1 (some 1) 1 1 0x29 1).allNonNull
      = true ∧
    ∃ call x y, nativeCalls (newEvents stubEnv
        (Call.cufftPlanManyNative (some 0) 1 (some 0) none 1 1 (some 1) 1 1 0x29 1) startWorld)
        = [call] ∧
      call.embeddings = some (x, y) ∧ (x = none ↔ (none : Option Nat) = none) :=
  ⟨rfl, rfl,
    (embeddings_are_never_null_checked stubEnv
      (Call.cufftPlanManyNative (some 0) 1 (some 0) none 1 1 (some 1) 1 1 0x29 1) startWorld
      none (some 1) rfl rfl).imp
      (fun _ h1 => h1.imp (fun _ h2 => h2.imp (fun _ h3 => ⟨h3.1, h3.2.1, h3.2.2.1⟩)))⟩

/-! ## The make-plan operations -/

/-- C19: makePlan1d, makePlan2d, makePlan3d, makePlanMany and makePlanMany64 with
non-null null-checked arguments hand the value of the handle's `plan` field to the
CUFFT routine by value, and the one value they write back to the field is the value
read from it; so after the call every `plan` field is what it was before, for
every behaviour of the routine and every result code. -/
theorem makePlan_keeps_plan_field (env : Env σ) (c : Call) (w : World σ) (handle : Nat)
    (hc : c.madePlan = some (some handle)) (h : c.allNonNull = true) :
    ∃ call, nativeCalls (newEvents env c w) = [call] ∧
      call.handle = some (w.plan handle) ∧
      (newEvents env c w).filterMap Event.fieldWrite = [(handle, w.plan handle)] ∧
      (c.run env w).2.plan = w.plan ∧
      (c.run env w).1 = some (env.cufft w.lib call).1.result := by
  cases c <;> simp [Call.madePlan] at hc <;> subst hc <;>
    simp [Call.allNonNull, Call.nullChecks] at h <;>
    simp only [newEvents, Call.run] <;> simp -zeta <;>
    (repeat' split) <;> (try simp at h) <;>
    simp_all [Logger.log, World.emit, GetIntField, SetIntField,
      getArrayContents_jintArray, getArrayContents_jlongArray, set_jlongArray_eq,
      callNative, getCufftType_eq, nativeCalls, Event.nativeCall, nativeCall_typeLog,
      NativeCall.handle, Event.fieldWrite, fieldWrite_typeLog]

/-- C19 for `cufftMakePlan1dNative` on a handle with `plan = 7`, against a stub that
would leave another value in a handle out-parameter. -/
theorem makePlan_keeps_plan_field_witness :
    (Call.cufftMakePlan1dNative (some 0) 1024 0x29 1 (some 0)).madePlan = some (some 0) ∧
    (Call.cufftMakePlan1dNative (some 0) 1024 0x29 1 (some 0)).allNonNull = true ∧
    ∃ call, nativeCalls (newEvents stubEnv
        (Call.cufftMakePlan1dNative (some 0) 1024 0x29 1 (some 0)) planSevenWorld) = [call] ∧
      call.handle = some (planSevenWorld.plan 0) ∧
      ((Call.cufftMakePlan1dNative (some 0) 1024 0x29 1 (some 0)).run stubEnv
        planSevenWorld).2.plan = planSevenWorld.plan :=
  ⟨rfl, rfl,
    (makePlan_keeps_plan_field stubEnv
      (Call.cufftMakePlan1dNative (some 0) 1024 0x29 1 (some 0)) planSevenWorld 0 rfl rfl).imp
      (fun _ hcall => ⟨hcall.1, hcall.2.1, hcall.2.2.2.1⟩)⟩

/-! ## Log messages -/

theorem null_message (env : Env σ) (c : Call) (w : World σ) (parameter : String)
    (hp : c.firstNull = some parameter) :
    exceptions (newEvents env c w) = [("java/lang/NullPointerException",
      if c.nullHandleOfFour then nullMessage "plan" c else nullMessage parameter c)] := by
  cases c <;> simp only [newEvents, Call.run, Call.nullHandleOfFour] <;> simp -zeta <;>
    (repeat' split) <;> simp [Call.firstNull, Call.nullChecks] at hp <;>
    subst hp <;> simp [ThrowByName, World.emit, exceptions, Event.exception] <;>
    first | rfl | (exfalso; simp_all)

/-- C17: at the failing inputs the code does not name the offending parameter. When
the argument of the parameter `handle` of `cufftGetSizeManyNative`,
`cufftGetSizeNative`, `cufftSetWorkAreaNative` or `cufftSetAutoAllocationNative` is
null, the message is `Parameter 'plan' is null for <op>`, not
`Parameter 'handle' is null for <op>`. For every other first null argument of every
operation the message is `Parameter '<p>' is null for <op>` with the name of that
parameter and of the wrapped CUFFT routine; in all cases exactly one exception is
raised. -/
theorem null_message_says_plan_for_handle (env : Env σ) :
    (∀ (c : Call) (w : World σ) (parameter : String), c.firstNull = some parameter →
      exceptions (newEvents env c w) = [("java/lang/NullPointerException",
        if c.nullHandleOfFour then nullMessage "plan" c else nullMessage parameter c)] ∧
      (c.nullHandleOfFour = true → parameter = "handle")) ∧
    ((Call.cufftGetSizeManyNative none 1 (some 0) (some 1) 1 1 (some 2) 1 1 0x29 1 (some 0)).firstNull = some "handle" ∧
      exceptions (newEvents stubEnv (Call.cufftGetSizeManyNative none 1 (some 0) (some 1) 1 1 (some 2) 1 1 0x29 1 (some 0)) startWorld)
        = [("java/lang/NullPointerException", "Parameter 'plan' is null for cufftGetSizeMany")] ∧
      nullMessage "handle" (Call.cufftGetSizeManyNative none 1 (some 0) (some 1) 1 1 (some 2) 1 1 0x29 1 (some 0))
        = "Parameter 'handle' is null for cufftGetSizeMany") ∧
    ((Call.cufftGetSizeNative none (some 0)).firstNull = some "handle" ∧
      exceptions (newEvents stubEnv (Call.cufftGetSizeNative none (some 0)) startWorld)
        = [("java/lang/NullPointerException", "Parameter 'plan' is null for cufftGetSize")] ∧
      nullMessage "handle" (Call.cufftGetSizeNative none (some 0))
        = "Parameter 'handle' is null for cufftGetSize") ∧
    ((Call.cufftSetWorkAreaNative none (some 0)).firstNull = some "handle" ∧
      exceptions (newEvents stubEnv (Call.cufftSetWorkAreaNative none (some 0)) startWorld)
        = [("java/lang/NullPointerException", "Parameter 'plan' is null for cufftSetWorkArea")] ∧
      nullMessage "handle" (Call.cufftSetWorkAreaNative none (some 0))
        = "Parameter 'handle' is null for cufftSetWorkArea") ∧
    ((Call.cufftSetAutoAllocationNative none 1).firstNull = some "handle" ∧
      exceptions (newEvents stubEnv (Call.cufftSetAutoAllocationNative none 1) startWorld)
        = [("java/lang/NullPointerException", "Parameter 'plan' is null for cufftSetAutoAllocation")] ∧
      nullMessage "handle" (Call.cufftSetAutoAllocationNative none 1)
        = "Parameter 'handle' is null for cufftSetAutoAllocation") := by
  refine ⟨?_, ?_, ?_, ?_, ?_⟩
  · intro c w parameter hp
    refine ⟨null_message env c w parameter hp, ?_⟩
    intro hfour
    cases c <;> simp [Call.nullHandleOfFour] at hfour <;>
      split at hfour <;> simp_all [Call.firstNull, Call.nullChecks]
  all_goals
    refine ⟨rfl, ?_, rfl⟩
    simp [newEvents, Call.run, ThrowByName, World.emit, exceptions, Event.exception, startWorld]

/-- C17 at `cufftGetSizeManyNative` with a null `workSize` (and non-null `handle`
and `n`): there the message names the parameter. -/
theorem null_message_says_plan_for_handle_witness :
    (Call.cufftGetSizeManyNative (some 0) 1 (some 0) (some 1) 1 1 (some 2) 1 1 0x29 1
      none).firstNull = some "workSize" ∧
    exceptions (newEvents stubEnv (Call.cufftGetSizeManyNative (some 0) 1 (some 0) (some 1) 1 1
      (some 2) 1 1 0x29 1 none) startWorld)
      = [("java/lang/NullPointerException",
          if (Call.cufftGetSizeManyNative (some 0) 1 (some 0) (some 1) 1 1 (some 2) 1 1 0x29 1
            none).nullHandleOfFour
          then nullMessage "plan" (Call.cufftGetSizeManyNative (some 0) 1 (some 0) (some 1) 1 1
            (some 2) 1 1 0x29 1 none)
          else nullMessage "workSize" (Call.cufftGetSizeManyNative (some 0) 1 (some 0) (some 1)
            1 1 (some 2) 1 1 0x29 1 none))] :=
  ⟨rfl, ((null_message_says_plan_for_handle stubEnv).1
    (Call.cufftGetSizeManyNative (some 0) 1 (some 0) (some 1) 1 1 (some 2) 1 1 0x29 1 none)
    startWorld "workSize" rfl).1⟩

/-! ## The work size as a signed number -/

theorem run_workSize_store (env : Env σ) (call : Call) (w : World σ) (a : Nat)
    (h : call.allNonNull = true) (ha : call.outArray = some (ArrayRef.jlongArray a)) :
    ∃ native, nativeCalls (newEvents env call w) = [native] ∧
      (call.run env w).2.longArrays a
        = (w.longArrays a).set 0 (jlong_of_size_t (env.cufft w.lib native).1.workSize) := by
  cases call <;> simp [Call.outArray] at ha <;>
    simp [Call.allNonNull, Call.nullChecks] at h <;>
    simp only [newEvents, Call.run] <;> simp -zeta <;> (repeat' split) <;> simp at h <;>
    simp_all [Logger.log, World.emit, GetIntField, SetIntField,
      getArrayContents_jintArray, getArrayContents_jlongArray, set_jlongArray_eq,
      callNative, getCufftType_eq, nativeCalls, Event.nativeCall, nativeCall_typeLog]

/-- C20: the value written to `workSize[0]` is the native `size_t` count read as a
signed 64-bit number. For a count `c` below `2 ^ 64` it is `c` when `c < 2 ^ 63` and
`c - 2 ^ 64` otherwise; so it equals the count exactly when `c < 2 ^ 63`, is not
negative for `c < 2 ^ 63`, lies in the range of `jlong`, and different counts give
different stored values. Every operation with a `workSize` array (the fifteen
estimate, getSize and makePlan operations), called with non-null null-checked
arguments and a `workSize` that has an element 0, makes one CUFFT call and, when
that call reports the count `c`, stores this value in element 0 and leaves the
other elements as they are. -/
theorem workSize_is_count_read_as_signed (c : Nat) (hc : c < 2 ^ 64) :
    (jlong_of_size_t c = if c < 2 ^ 63 then (c : Int) else (c : Int) - 2 ^ 64) ∧
    (jlong_of_size_t c = (c : Int) ↔ c < 2 ^ 63) ∧
    (c < 2 ^ 63 → 0 ≤ jlong_of_size_t c) ∧
    (-(2 ^ 63) ≤ jlong_of_size_t c ∧ jlong_of_size_t c < 2 ^ 63) ∧
    (∀ d : Nat, d < 2 ^ 64 → jlong_of_size_t c = jlong_of_size_t d → c = d) ∧
    (∀ (env : Env σ) (call : Call) (w : World σ) (a : Nat), call.allNonNull = true →
      call.outArray = some (ArrayRef.jlongArray a) → 0 < (w.longArrays a).length →
      ∃ native, nativeCalls (newEvents env call w) = [native] ∧
        ((env.cufft w.lib native).1.workSize = c →
          (call.run env w).2.longArrays a = jlong_of_size_t c :: (w.longArrays a).tail)) ∧
    (List.map (fun call : Call => (call.methodName, call.outArray))
      [Call.cufftMakePlan1dNative none 0 0 0 (some 0),
        Call.cufftMakePlan2dNative none 0 0 0 (some 0),
        Call.cufftMakePlan3dNative none 0 0 0 0 (some 0),
        Call.cufftMakePlanManyNative none 0 none none 0 0 none 0 0 0 0 (some 0),
        Call.cufftMakePlanManyNative64 none 0 none none 0 0 none 0 0 0 0 (some 0),
        Call.cufftGetSizeMany64Native none 0 none none 0 0 none 0 0 0 0 (some 0),
        Call.cufftEstimate1dNative 0 0 0 (some 0),
        Call.cufftEstimate2dNative 0 0 0 (some 0),
        Call.cufftEstimate3dNative 0 0 0 0 (some 0),
        Call.cufftEstimateManyNative 0 none none 0 0 none 0 0 0 0 (some 0),
        Call.cufftGetSize1dNative none 0 0 0 (some 0),
        Call.cufftGetSize2dNative none 0 0 0 (some 0),
        Call.cufftGetSize3dNative none 0 0 0 0 (some 0),
        Call.cufftGetSizeManyNative none 0 none none 0 0 none 0 0 0 0 (some 0),
        Call.cufftGetSizeNative none (some 0)]
      = List.map (fun name : String => (name, some (ArrayRef.jlongArray 0)))
        ["cufftMakePlan1dNative", "cufftMakePlan2dNative", "cufftMakePlan3dNative",
          "cufftMakePlanManyNative", "cufftMakePlanManyNative64", "cufftGetSizeMany64Native",
          "cufftEstimate1dNative", "cufftEstimate2dNative", "cufftEstimate3dNative",
          "cufftEstimateManyNative", "cufftGetSize1dNative", "cufftGetSize2dNative",
          "cufftGetSize3dNative", "cufftGetSizeManyNative", "cufftGetSizeNative"]) := by
  have hmod : ∀ d : Nat, d < 2 ^ 64 → jlong_of_size_t d
      = if d < 2 ^ 63 then (d : Int) else (d : Int) - 2 ^ 64 := by
    intro d hd
    unfold jlong_of_size_t
    rw [Nat.mod_eq_of_lt hd]
  refine ⟨hmod c hc, ?_, ?_, ?_, ?_, ?_, rfl⟩
  · rw [hmod c hc]
    split_ifs with h
    · exact ⟨fun _ => h, fun _ => rfl⟩
    · constructor
      · intro h2
        omega
      · intro h2
        exact absurd h2 h
  · intro h
    rw [hmod c hc, if_pos h]
    omega
  · rw [hmod c hc]
    split_ifs with h <;> constructor <;> omega
  · intro d hd heq
    rw [hmod c hc, hmod d hd] at heq
    split_ifs at heq <;> omega
  · intro env call w a h ha hlen
    obtain ⟨native, e1, e2⟩ := run_workSize_store env call w a h ha
    refine ⟨native, e1, ?_⟩
    intro hreply
    rw [e2, hreply, set_zero_eq_cons _ _ hlen]

/-- C20 at the count `2 ^ 63`, the smallest one that is stored as a negative
number. -/
theorem workSize_is_count_read_as_signed_witness :
    ((2 ^ 63 : Nat) < 2 ^ 64) ∧
    jlong_of_size_t (2 ^ 63) = if (2 ^ 63 : Nat) < 2 ^ 63 then ((2 ^ 63 : Nat) : Int)
      else ((2 ^ 63 : Nat) : Int) - 2 ^ 64 :=
  ⟨by decide, (@workSize_is_count_read_as_signed Unit (2 ^ 63) (by decide)).1⟩

end JCufft
